import Mathlib

/-!
Verification of the skill-taxonomy matching and weighted scoring engine of the
ResumeCheckerAPI repository (`backend/skill_matcher.py`, `backend/scoring_engine.py`,
`backend/models.py`, `backend/validation.py`).

Modelling conventions, fixed throughout the file:
* Python `float` arithmetic is modelled by exact rational arithmetic (`ℚ`); the
  source only combines small decimal constants, so every branch condition and
  every produced score is modelled by the exact value of the same expression.
* Python `int` is `Int` (scores, years); `int(x)` truncation toward zero on a
  float is `pyInt` below.
* Strings are modelled over printable ASCII: `str.lower`, `str.strip`,
  `str.title` and the regex classes `\w` `\s` `\d` are given their ASCII
  meaning (whitespace is space, tab, newline, carriage return, vertical tab
  and form feed; the further C0 control characters and non-ASCII code points
  that Python also treats as whitespace or word characters are out of scope).
* Python `set`s of strings are modelled as duplicate-free lists (`List.dedup`);
  set iteration order is unspecified in Python, the model fixes one order.
  Where the source iterates a set in an order-sensitive position this is noted.
* `difflib.SequenceMatcher` is modelled without the autojunk heuristic, which
  only activates when the second sequence has ≥ 200 elements; every second
  argument in this code base is a canonical skill name, far below that bound.
-/

set_option allowUnsafeReducibility true

/- The Batteries rational arithmetic is `@[irreducible]` for the elaborator
only; the kernel unfolds it regardless. Making it semireducible in this file
lets `decide` evaluate the engine on concrete inputs. -/
attribute [local semireducible] Rat.add Rat.mul Rat.div Rat.inv Rat.sub Rat.neg

/-! ### ASCII string primitives (Python `lower`, `strip`, `\s`, `\w`, `split`, `title`) -/

/-- Python's default whitespace class (`\s` and `str.strip`) restricted to ASCII. -/
def isPySpace (c : Char) : Bool :=
  c = ' ' || c = '\t' || c = '\n' || c = '\x0d' || c = '\x0b' || c = '\x0c'

/-- The regex class `\w` restricted to ASCII: letters, digits and underscore. -/
def isWordChar (c : Char) : Bool :=
  c.isAlphanum || c = '_'

/-- `str.lower` on ASCII text. -/
def pyLowerStr (s : String) : String :=
  String.mk (s.data.map Char.toLower)

/-- `str.strip()` on a character list: drop leading and trailing whitespace. -/
def pyStrip (l : List Char) : List Char :=
  ((l.dropWhile isPySpace).reverse.dropWhile isPySpace).reverse

/-- `str.strip()` on strings. -/
def pyStripStr (s : String) : String :=
  String.mk (pyStrip s.data)

/-- `re.sub(r'\s+', ' ', ·)`: replace every maximal whitespace run by one space. -/
def collapseWS : List Char → List Char
  | [] => []
  | [c] => if isPySpace c then [' '] else [c]
  | c :: d :: rest =>
    if isPySpace c then
      if isPySpace d then collapseWS (d :: rest) else ' ' :: collapseWS (d :: rest)
    else c :: collapseWS (d :: rest)

/-- `str.split()` worker: single pass with the current (reversed) token as
accumulator. -/
def pySplitAux (cur : List Char) : List Char → List (List Char)
  | [] => if cur = [] then [] else [cur.reverse]
  | c :: rest =>
    if isPySpace c then
      if cur = [] then pySplitAux [] rest else cur.reverse :: pySplitAux [] rest
    else pySplitAux (c :: cur) rest

/-- `str.split()`: split on whitespace runs, dropping empty tokens. -/
def pySplit (l : List Char) : List (List Char) :=
  pySplitAux [] l

/-- `str.title()` on ASCII text: a letter after a non-letter is uppercased,
letters after letters are lowercased. -/
def pyTitleAux : Bool → List Char → List Char
  | _, [] => []
  | prevAlpha, c :: rest =>
    if c.isAlpha then
      (if prevAlpha then c.toLower else c.toUpper) :: pyTitleAux true rest
    else c :: pyTitleAux false rest

/-- `str.title()` on strings. -/
def pyTitle (s : String) : String :=
  String.mk (pyTitleAux false s.data)

/-- Python's substring test `needle in hay`. -/
def strIn (needle hay : String) : Bool :=
  (List.range (hay.data.length + 1)).any fun i => needle.data.isPrefixOf (hay.data.drop i)

/-! ### `difflib.SequenceMatcher` (no junk, no autojunk) -/

/-- Length of the common prefix of two character lists. -/
def commonPrefixLen : List Char → List Char → Nat
  | a :: as, b :: bs => if a = b then commonPrefixLen as bs + 1 else 0
  | _, _ => 0

/-- All index pairs `(i, j)` with `i < m`, `j < n`, in the scan order of
`SequenceMatcher.find_longest_match` (outer loop over `a`, inner over `b`). -/
def rangePairs (m n : Nat) : List (Nat × Nat) :=
  (List.range m).flatMap fun i => (List.range n).map fun j => (i, j)

/-- One step of the longest-matching-block search: a strictly longer block
replaces the current best, ties keep the earlier (smaller `(i, j)`) block,
exactly as `find_longest_match` does with its strict `k > bestsize` update. -/
def lmStep (a b : List Char) (best : Nat × Nat × Nat) (ij : Nat × Nat) : Nat × Nat × Nat :=
  if best.2.2 < commonPrefixLen (a.drop ij.1) (b.drop ij.2) then
    (ij.1, ij.2, commonPrefixLen (a.drop ij.1) (b.drop ij.2))
  else best

/-- `SequenceMatcher.find_longest_match` over the whole of `a` and `b`
(junk-free case): the longest matching block `(i, j, size)`, earliest in `a`
then in `b` on ties. -/
def longestMatch (a b : List Char) : Nat × Nat × Nat :=
  (rangePairs a.length b.length).foldl (lmStep a b) (0, 0, 0)

/-- Total size of all matching blocks (`get_matching_blocks`) with explicit
recursion depth: recursively split around the longest matching block and sum
the block sizes. Each split strictly shrinks `a.length + b.length` (the block
is non-empty), so any `fuel ≥ a.length + b.length` computes the recursion
exactly; at `fuel = 0` the lists are empty and the longest block is empty, so
the two base cases agree. -/
def matchingTotalF : Nat → List Char → List Char → Nat
  | 0, _, _ => 0
  | fuel + 1, a, b =>
    if (longestMatch a b).2.2 = 0 then 0
    else
      matchingTotalF fuel (a.take (longestMatch a b).1) (b.take (longestMatch a b).2.1) +
        (longestMatch a b).2.2 +
        matchingTotalF fuel (a.drop ((longestMatch a b).1 + (longestMatch a b).2.2))
          (b.drop ((longestMatch a b).2.1 + (longestMatch a b).2.2))

/-- Total size of all matching blocks. Merging of adjacent blocks in the
source does not change the total. -/
def matchingTotal (a b : List Char) : Nat :=
  matchingTotalF (a.length + b.length) a b

/-- `SequenceMatcher(None, a, b).ratio()`: `2 * M / (len(a) + len(b))`, and `1.0`
when both are empty (`_calculate_ratio`). -/
def smRatioVal (a b : List Char) : ℚ :=
  if a.length + b.length = 0 then 1
  else (2 * (matchingTotal a b : ℚ)) / ((a.length : ℚ) + (b.length : ℚ))

/-! ### Taxonomy data (`EnhancedSkillTaxonomy.__init__`) -/

/-- Represents a matched skill with confidence score (`SkillMatch`). -/
structure SkillMatch where
  original : String
  normalized : String
  confidence : ℚ
  match_type : String
deriving DecidableEq, Repr

/-- `self._skill_aliases`, in declaration order. -/
def skillAliases : List (String × List String) := [
  ("python", ["python", "py", "python3", "cpython", "python2"]),
  ("javascript", ["javascript", "js", "ecmascript", "node.js", "nodejs", "node"]),
  ("typescript", ["typescript", "ts"]),
  ("java", ["java", "openjdk", "oracle java"]),
  ("c#", ["c#", "csharp", "c sharp", ".net", "dotnet"]),
  ("c++", ["c++", "cpp", "cplusplus", "c plus plus"]),
  ("go", ["go", "golang", "go lang"]),
  ("rust", ["rust", "rust-lang"]),
  ("php", ["php", "php7", "php8"]),
  ("ruby", ["ruby", "ruby on rails", "rails"]),
  ("swift", ["swift", "ios swift"]),
  ("kotlin", ["kotlin", "android kotlin"]),
  ("scala", ["scala", "scala.js"]),
  ("r", ["r", "r programming", "r-lang"]),
  ("postgresql", ["postgresql", "postgres", "psql", "pg"]),
  ("mysql", ["mysql", "mariadb"]),
  ("mongodb", ["mongodb", "mongo", "mongo db"]),
  ("redis", ["redis", "redis cache"]),
  ("sqlite", ["sqlite", "sqlite3"]),
  ("oracle", ["oracle", "oracle db", "oracle database"]),
  ("cassandra", ["cassandra", "apache cassandra"]),
  ("elasticsearch", ["elasticsearch", "elastic search", "es"]),
  ("aws", ["aws", "amazon web services", "amazon aws"]),
  ("azure", ["azure", "microsoft azure", "ms azure"]),
  ("gcp", ["gcp", "google cloud", "google cloud platform"]),
  ("docker", ["docker", "containerization", "containers"]),
  ("kubernetes", ["kubernetes", "k8s", "kube"]),
  ("terraform", ["terraform", "tf", "hcl"]),
  ("ansible", ["ansible", "ansible playbook"]),
  ("jenkins", ["jenkins", "jenkins ci/cd", "jenkins pipeline"]),
  ("git", ["git", "version control", "git scm"]),
  ("github", ["github", "github actions"]),
  ("gitlab", ["gitlab", "gitlab ci"]),
  ("circleci", ["circleci", "circle ci"]),
  ("apache spark", ["spark", "apache spark", "pyspark"]),
  ("hadoop", ["hadoop", "apache hadoop", "hdfs"]),
  ("kafka", ["kafka", "apache kafka"]),
  ("airflow", ["airflow", "apache airflow"]),
  ("tableau", ["tableau", "tableau desktop", "tableau server"]),
  ("power bi", ["power bi", "powerbi", "microsoft power bi"]),
  ("excel", ["excel", "microsoft excel", "ms excel"]),
  ("react", ["react", "reactjs", "react.js"]),
  ("angular", ["angular", "angularjs", "angular.js"]),
  ("vue", ["vue", "vuejs", "vue.js"]),
  ("django", ["django", "django rest", "drf"]),
  ("flask", ["flask", "flask api"]),
  ("fastapi", ["fastapi", "fast api"]),
  ("express", ["express", "expressjs", "express.js"]),
  ("spring", ["spring", "spring boot", "spring framework"]),
  ("linux", ["linux", "ubuntu", "centos", "rhel", "debian"]),
  ("windows", ["windows", "windows server", "microsoft windows"]),
  ("macos", ["macos", "mac os", "osx", "os x"]),
  ("pytest", ["pytest", "python testing"]),
  ("junit", ["junit", "java testing"]),
  ("selenium", ["selenium", "selenium webdriver"]),
  ("cypress", ["cypress", "cypress.io"]),
  ("tensorflow", ["tensorflow", "tf", "keras"]),
  ("pytorch", ["pytorch", "torch"]),
  ("scikit-learn", ["scikit-learn", "sklearn", "scikit learn"]),
  ("pandas", ["pandas", "python pandas"]),
  ("numpy", ["numpy", "python numpy"])]

/-- `self._skill_categories`, in declaration order. -/
def skillCategories : List (String × List String) := [
  ("programming", ["python", "javascript", "typescript", "java", "c#", "c++", "go", "rust",
    "php", "ruby", "swift", "kotlin", "scala", "r"]),
  ("databases", ["postgresql", "mysql", "mongodb", "redis", "sqlite", "oracle", "cassandra",
    "elasticsearch"]),
  ("cloud", ["aws", "azure", "gcp"]),
  ("devops", ["docker", "kubernetes", "terraform", "ansible", "jenkins", "git", "github",
    "gitlab", "circleci"]),
  ("data_analytics", ["apache spark", "hadoop", "kafka", "airflow", "tableau", "power bi",
    "excel"]),
  ("web_frameworks", ["react", "angular", "vue", "django", "flask", "fastapi", "express",
    "spring"]),
  ("operating_systems", ["linux", "windows", "macos"]),
  ("testing", ["pytest", "junit", "selenium", "cypress"]),
  ("machine_learning", ["tensorflow", "pytorch", "scikit-learn", "pandas", "numpy"])]

/-- `self._normalized_skills`: the canonical skill names (dict keys, declaration
order; the source stores them in a `set`, of which this list is one iteration
order — where an order-sensitive use occurs it is flagged at the use site). -/
def normalizedSkills : List String := skillAliases.map Prod.fst

/-- All `(alias.lower(), skill)` pairs in insertion order of the
`_alias_to_skill` build loop. -/
def aliasPairs : List (String × String) :=
  skillAliases.flatMap fun p => p.2.map fun a => (pyLowerStr a, p.1)

/-- `self._alias_to_skill[k]`: a Python dict lookup returns the most recent
insertion for a key (e.g. `"tf"` was inserted for terraform, then overwritten
by tensorflow), hence the scan over the reversed pair list. -/
def lookupAlias (k : String) : Option String :=
  (aliasPairs.reverse.find? fun p => p.1 == k).map Prod.snd

/-! ### `EnhancedSkillTaxonomy` operations -/

/-- The cleaning part of `normalize_skill`:
`re.sub(r'\s+', ' ', re.sub(r'[^\w\s\+\#\.]', '', skill.lower().strip()))`. -/
def keepChar (c : Char) : Bool :=
  isWordChar c || isPySpace c || c = '+' || c = '#' || c = '.'

/-- Lower-case, strip, remove characters outside `\w \s + # .`, collapse
whitespace runs to single spaces. -/
def cleanSkill (s : String) : String :=
  String.mk (collapseWS ((pyStrip (s.data.map Char.toLower)).filter keepChar))

/-- `normalize_skill`: clean, then resolve through the alias table on an exact
hit, else return the cleaned string (the `lru_cache` memoization does not
change the value). -/
def normalize_skill (s : String) : String :=
  if s = "" then ""
  else
    (lookupAlias (cleanSkill s)).getD (cleanSkill s)

/-- `get_skill_category`: first category (declaration order) containing the
normalized skill, else `"other"`. -/
def get_skill_category (s : String) : String :=
  ((skillCategories.find? fun p => p.2.contains (normalize_skill s)).map Prod.fst).getD "other"

/-- `get_related_skills`: the other skills of the category of the input
(`list.remove` drops the first occurrence of the skill itself). -/
def get_related_skills (s : String) : List String :=
  if get_skill_category (normalize_skill s) = "other" then []
  else
    (((skillCategories.find? fun p =>
        p.1 == get_skill_category (normalize_skill s)).map Prod.snd).getD []).erase
      (normalize_skill s)

/-- Stable descending insertion by confidence: equal confidences keep their
original relative order, as Python's stable `sorted(..., reverse=True)` does. -/
def insertDesc (m : SkillMatch) : List SkillMatch → List SkillMatch
  | [] => [m]
  | x :: xs => if m.confidence ≥ x.confidence then m :: x :: xs else x :: insertDesc m xs

/-- `sorted(matches, key=lambda x: x.confidence, reverse=True)`. -/
def sortDesc : List SkillMatch → List SkillMatch
  | [] => []
  | x :: xs => insertDesc x (sortDesc xs)

/-- The `seen_skills` deduplication of `fuzzy_match_skill`: keep the first
occurrence of each normalized name. -/
def dedupByNorm : List SkillMatch → List String → List SkillMatch
  | [], _ => []
  | m :: rest, seen =>
    if seen.contains m.normalized then dedupByNorm rest seen
    else m :: dedupByNorm rest (m.normalized :: seen)

/-- The Jaccard token-similarity part of `semantic_similarity`: whitespace
tokens as sets, `0.0` when either token set is empty. -/
def jaccardTokens (n1 n2 : String) : ℚ :=
  if (pySplit n1.data) = [] ∨ (pySplit n2.data) = [] then 0
  else
    let t1 := ((pySplit n1.data).map String.mk).dedup
    let t2 := ((pySplit n2.data).map String.mk).dedup
    let interN := (t1.filter fun x => t2.contains x).length
    let unionN := (t1 ++ t2.filter fun x => !t1.contains x).length
    if 0 < unionN then (interN : ℚ) / (unionN : ℚ) else 0

/-- `semantic_similarity`: token similarity (weight 0.6) plus character
sequence ratio (weight 0.4) plus a flat 0.3 bonus when both normalized skills
share the same non-"other" category, capped at 1.0; `1.0` on equal normalized
forms, `0.0` when either input is empty. -/
def semantic_similarity (s1 s2 : String) : ℚ :=
  if s1 = "" ∨ s2 = "" then 0
  else if normalize_skill s1 = normalize_skill s2 then 1
  else
    min 1
      (jaccardTokens (normalize_skill s1) (normalize_skill s2) * (6/10) +
        smRatioVal (normalize_skill s1).data (normalize_skill s2).data * (4/10) +
        (if get_skill_category (normalize_skill s1) = get_skill_category (normalize_skill s2) ∧
            get_skill_category (normalize_skill s1) ≠ "other" then 3/10 else 0))

/-- `find_semantic_matches`: all canonical skills with semantic similarity at
least `threshold`, match type `near_exact` from similarity 0.9 upward, sorted
descending (stably), top 5. -/
def find_semantic_matches (skill : String) (threshold : ℚ) : List SkillMatch :=
  if pyStripStr skill = "" then []
  else
    (sortDesc (normalizedSkills.filterMap fun c =>
      if semantic_similarity skill c ≥ threshold then
        some ⟨skill, c, semantic_similarity skill c,
          if semantic_similarity skill c < 9/10 then "semantic" else "near_exact"⟩
      else none)).take 5

/-- The alias stage of `fuzzy_match_skill`: the (dead in practice, since
`normalize_skill` already resolves aliases) 0.95-confidence alias match. -/
def aliasStage (skill ni : String) : List SkillMatch :=
  match lookupAlias ni with
  | some c => [⟨skill, c, 95/100, "alias"⟩]
  | none => []

/-- The fuzzy stage of `fuzzy_match_skill`: sequence-matcher similarity of the
normalized input against every canonical skill, kept from
`max(threshold, 0.7)` upward. The source iterates the canonical-name `set`
(hash order, unspecified); the model fixes declaration order. -/
def fuzzyStage (skill ni : String) (threshold : ℚ) : List SkillMatch :=
  normalizedSkills.filterMap fun c =>
    if smRatioVal ni.data c.data ≥ max threshold (7/10) then
      some ⟨skill, c, smRatioVal ni.data c.data, "fuzzy"⟩
    else none

/-- The matches accumulated before the semantic stage: alias stage followed by
fuzzy stage, in accumulation order (unsorted). -/
def aliasFuzzyMatches (skill ni : String) (threshold : ℚ) : List SkillMatch :=
  aliasStage skill ni ++ fuzzyStage skill ni threshold

/-- `if not matches or matches[0].confidence < 0.8`: the guard deciding whether
the semantic stage runs. Note it inspects the FIRST accumulated match, not the
best one — the list is only sorted afterwards. -/
def semanticTrigger (ms : List SkillMatch) : Bool :=
  match ms.head? with
  | none => true
  | some m => decide (m.confidence < 8/10)

/-- `matches and matches[0].confidence >= 0.95 and threshold <= 0.8`: the early
return after the alias stage. -/
def aliasEarlyReturn (ms : List SkillMatch) (threshold : ℚ) : Bool :=
  match ms.head? with
  | none => false
  | some m => decide (m.confidence ≥ 95/100) && decide (threshold ≤ 8/10)

/-- `fuzzy_match_skill`: exact, alias, fuzzy and semantic stages with early
returns, then stable descending sort, dedup by normalized name (first kept),
top 3. -/
def fuzzy_match_skill (skill : String) (threshold : ℚ) : List SkillMatch :=
  if pyStripStr skill = "" then []
  else if normalizedSkills.contains (normalize_skill skill) then
    [⟨skill, normalize_skill skill, 1, "exact"⟩]
  else if aliasEarlyReturn (aliasStage skill (normalize_skill skill)) threshold then
    aliasStage skill (normalize_skill skill)
  else
    (dedupByNorm
      (sortDesc
        (if semanticTrigger (aliasFuzzyMatches skill (normalize_skill skill) threshold) then
          aliasFuzzyMatches skill (normalize_skill skill) threshold ++
            find_semantic_matches skill (max threshold (6/10))
        else aliasFuzzyMatches skill (normalize_skill skill) threshold))
      []).take 3

/-- `validate_and_match_skills` worker: keep the best match of each non-blank
skill when its confidence reaches 0.7 (first occurrence of each normalized
name wins), otherwise report the stripped original as unmatched. -/
def vamAux : List String → List String → List SkillMatch × List String
  | [], _ => ([], [])
  | s :: rest, seen =>
    if pyStripStr s = "" then vamAux rest seen
    else
      match (fuzzy_match_skill s (7/10)).head? with
      | some m =>
        if m.confidence ≥ 7/10 then
          if seen.contains m.normalized then vamAux rest seen
          else ((vamAux rest (m.normalized :: seen)).1.cons m, (vamAux rest (m.normalized :: seen)).2)
        else ((vamAux rest seen).1, (vamAux rest seen).2.cons (pyStripStr s))
      | none => ((vamAux rest seen).1, (vamAux rest seen).2.cons (pyStripStr s))

/-- `validate_and_match_skills`. -/
def validate_and_match_skills (skills : List String) : List SkillMatch × List String :=
  vamAux skills []

/-! ### Data model (`models.py`) -/

/-- `SkillSet`. -/
structure SkillSet where
  technical : List String := []
  soft : List String := []
deriving DecidableEq, Repr

/-- `ExperienceDetails`. Python `int` is unbounded and unconstrained here. -/
structure ExperienceDetails where
  minimum_years : Option Int := none
  industry : Option String := none
  type : Option String := none
  leadership : Option String := none
deriving DecidableEq, Repr

/-- `JobRequirements`. The pydantic model declares no `confidences` field. -/
structure JobRequirements where
  required_skills : SkillSet := {}
  experience : ExperienceDetails := {}
  qualifications : List String := []
  responsibilities : List String := []
  languages : List String := []
  seniority_level : Option String := none
deriving DecidableEq, Repr

/-- `CVKeyInfo`. -/
structure CVKeyInfo where
  experience_summary : String
  technical_skills : List String := []
  soft_skills : List String := []
  certifications : List String := []
  languages : List String := []
  responsibilities : List String := []
deriving DecidableEq, Repr

/-- `CandidateAssessment`. -/
structure CandidateAssessment where
  overall_fit_score : Int
  justification : String
  strengths : List String := []
  gaps : List String := []
deriving DecidableEq, Repr

/-- `StrategicRecommendations`. -/
structure StrategicRecommendations where
  tailoring : List String := []
  interview_focus : List String := []
  career_development : List String := []
deriving DecidableEq, Repr

/-- `CVAnalysis`. -/
structure CVAnalysis where
  candidate_suitability : CandidateAssessment
  key_information : CVKeyInfo
  recommendations : StrategicRecommendations
deriving DecidableEq, Repr

/-- `MatchingScore` (scores are ints; the pydantic bounds 0..100 are proven,
not assumed, for engine outputs). -/
structure MatchingScore where
  overall_match_score : Int
  overall_explanation : String
  technical_skills_score : Int
  technical_skills_explanation : String
  soft_skills_score : Int
  soft_skills_explanation : String
  experience_score : Int
  experience_explanation : String
  qualifications_score : Int
  qualifications_explanation : String
  key_responsibilities_score : Int
  key_responsibilities_explanation : String
  improvement_suggestions : List String := []
  strengths : List String := []
  gaps : List String := []
deriving DecidableEq, Repr

/-! ### Scoring engine (`scoring_engine.py`) -/

/-- Python `int(x)` on a float: truncation toward zero. -/
def pyInt (q : ℚ) : Int :=
  if 0 ≤ q then ⌊q⌋ else -⌊-q⌋

/-- `d.get(key, default)` on a string-keyed map of confidences. -/
def confGet (confs : List (String × ℚ)) (key : String) (default : ℚ) : ℚ :=
  ((confs.find? fun p => p.1 == key).map Prod.snd).getD default

/-- Render `n` tenths as a decimal string, the exact-value counterpart of the
`{related_bonus:.1f}` formatting (the bonus is always a multiple of 0.3, on
which the float formatting agrees with the exact value). -/
def fmtTenths (n : Nat) : String :=
  toString (n / 10) ++ "." ++ toString (n % 10)

/-- Render a weight as a percentage, the exact-value counterpart of the
`{weight:.0%}` formatting (every configured weight is a whole percentage). -/
def fmtPct (w : ℚ) : String :=
  toString ⌊w * 100⌋ ++ "%"

/-- `WeightingProfile` (fields only; the `__post_init__` sum check is
`mkWeightingProfile`). -/
structure WeightingProfile where
  technical_skills_weight : ℚ := 30/100
  soft_skills_weight : ℚ := 15/100
  experience_weight : ℚ := 25/100
  qualifications_weight : ℚ := 15/100
  responsibilities_weight : ℚ := 15/100
deriving DecidableEq, Repr

/-- The five weights in order. -/
def WeightingProfile.sumWeights (p : WeightingProfile) : ℚ :=
  p.technical_skills_weight + p.soft_skills_weight + p.experience_weight +
    p.qualifications_weight + p.responsibilities_weight

/-- `WeightingProfile.__post_init__`: constructing a profile whose weights sum
more than 0.01 away from 1.0 raises `ValueError` (modelled as `Except.error`
carrying the offending total); a successful construction stores the weights
unchanged -- no renormalization. -/
def mkWeightingProfile (t s e q r : ℚ) : Except ℚ WeightingProfile :=
  if |t + s + e + q + r - 1| > 1/100 then .error (t + s + e + q + r)
  else .ok ⟨t, s, e, q, r⟩

/-- `WEIGHTING_PROFILES`, declaration order. -/
def WEIGHTING_PROFILES : List (String × WeightingProfile) := [
  ("software_engineering", ⟨40/100, 10/100, 30/100, 10/100, 10/100⟩),
  ("data_science", ⟨35/100, 15/100, 25/100, 15/100, 10/100⟩),
  ("product_management", ⟨15/100, 30/100, 25/100, 10/100, 20/100⟩),
  ("sales", ⟨5/100, 40/100, 30/100, 10/100, 15/100⟩),
  ("marketing", ⟨20/100, 25/100, 25/100, 10/100, 20/100⟩),
  ("default", ⟨30/100, 15/100, 25/100, 15/100, 15/100⟩)]

/-- `WEIGHTING_PROFILES.get(industry, WEIGHTING_PROFILES["default"])`. -/
def profileFor (industry : String) : WeightingProfile :=
  ((WEIGHTING_PROFILES.find? fun p => p.1 == industry).map Prod.snd).getD
    ⟨30/100, 15/100, 25/100, 15/100, 15/100⟩

/-- The industry keyword patterns of `infer_industry`, declaration order. -/
def industryPatterns : List (String × List String) := [
  ("software_engineering", ["software", "developer", "programming", "engineer", "backend",
    "frontend", "fullstack", "devops", "api", "microservices", "architect"]),
  ("data_science", ["data scientist", "machine learning", "ml", "ai", "analytics",
    "statistics", "modeling", "data engineer", "big data", "etl"]),
  ("product_management", ["product manager", "product owner", "roadmap", "stakeholder",
    "agile", "scrum", "user stories", "requirements", "strategy"]),
  ("sales", ["sales", "account manager", "business development", "revenue",
    "quota", "pipeline", "crm", "client", "prospect"]),
  ("marketing", ["marketing", "campaign", "brand", "content", "social media",
    "seo", "sem", "growth", "acquisition", "engagement"])]

/-- `infer_industry`: count keyword hits of each industry over the lowercased
concatenation of responsibilities, required technical skills and seniority
level; highest count wins, earlier-declared industry on ties (Python `max`
over the insertion-ordered dict keeps the first maximal entry), `"default"`
when no keyword hits at all. -/
def infer_industry (job : JobRequirements) : String :=
  let combined := pyLowerStr (String.intercalate " "
    (job.responsibilities ++ job.required_skills.technical ++
      (match job.seniority_level with
       | some s => if s = "" then [] else [s]
       | none => [])))
  let scores := (industryPatterns.map fun p =>
      (p.1, p.2.countP fun kw => strIn kw combined)).filter fun p => 0 < p.2
  match scores with
  | [] => "default"
  | s :: rest => (rest.foldl (fun best p => if best.2 < p.2 then p else best) s).1

/-- The numeric tail of `calculate_technical_skills_score`:
`min(100, int((base * confidence + (1 - confidence) * 0.7) * 100))` with
`base = (match_count + related_count * 0.3) / total_required`. -/
def techFinal (matchCount totalRequired relatedCount : Nat) (confidence : ℚ) : Int :=
  min 100 (pyInt (((((matchCount : ℚ) + (relatedCount : ℚ) * (3/10)) / (totalRequired : ℚ)) *
    confidence + (1 - confidence) * (7/10)) * 100))

/-- `calculate_technical_skills_score`. The `cv_normalized`/`job_normalized`
sets are modelled as deduplicated lists; the numeric result only depends on
them as sets. `matched_skills` (`list(direct_matches)`) is returned in the
model's set order. -/
def calculate_technical_skills_score (cv_skills job_skills : List String)
    (job_confidences : List (String × ℚ)) : Int × String × List String :=
  if job_skills = [] then (85, "No specific technical skills required", [])
  else
    let cvN := (((validate_and_match_skills cv_skills).1.map fun m => m.normalized)).dedup
    let jobN := (((validate_and_match_skills job_skills).1.map fun m => m.normalized)).dedup
    if jobN = [] then (75, "Unable to parse required technical skills", [])
    else
      let direct := cvN.filter fun x => jobN.contains x
      let relatedCount := jobN.countP fun j =>
        !direct.contains j && cvN.any fun x => (get_related_skills j).contains x
      (techFinal direct.length jobN.length relatedCount
        (confGet job_confidences "required_skills" (8/10)),
       toString direct.length ++ "/" ++ toString jobN.length ++ " required skills matched" ++
         (if 0 < relatedCount then
            " (+" ++ fmtTenths (3 * relatedCount) ++ " related skills bonus)" else ""),
       direct)

/-! ### Experience-year extraction (`calculate_experience_score`, regex part).
The four patterns are compiled to explicit matchers. Greedy `\d+`, `\+?`,
`s?` and `\s*` never need backtracking against the literals that follow them
(each following literal starts with a non-digit non-plus non-space character
distinct from `s`), and the optional `(?:of\s*)?` group is tried with the
group first, then without, as the regex engine does. -/

/-- `\d+` (value and rest); `none` when no leading digit. -/
def takeDigits (l : List Char) : Option (Nat × List Char) :=
  if (l.takeWhile Char.isDigit) = [] then none
  else some ((l.takeWhile Char.isDigit).foldl (fun n c => n * 10 + (c.toNat - 48)) 0,
             l.dropWhile Char.isDigit)

/-- `\s*`. -/
def skipWS (l : List Char) : List Char := l.dropWhile isPySpace

/-- A literal word. -/
def litM (w : String) (l : List Char) : Option (List Char) :=
  if w.data.isPrefixOf l then some (l.drop w.data.length) else none

/-- `\+?`. -/
def optPlus : List Char → List Char
  | '+' :: r => r
  | l => l

/-- `s?`. -/
def optS : List Char → List Char
  | 's' :: r => r
  | l => l

/-- `(\d+)\+?\s*years?\s*(?:of\s*)?experience` at the start of `l`. -/
def matchYearsExp (l : List Char) : Option (Nat × List Char) :=
  match takeDigits l with
  | none => none
  | some (n, r0) =>
    match litM "year" (skipWS (optPlus r0)) with
    | none => none
    | some r1 =>
      match litM "of" (skipWS (optS r1)) with
      | some r2 =>
        match litM "experience" (skipWS r2) with
        | some r3 => some (n, r3)
        | none => (litM "experience" (skipWS (optS r1))).map fun r => (n, r)
      | none => (litM "experience" (skipWS (optS r1))).map fun r => (n, r)

/-- `(\d+)\+?\s*years?\s*in` at the start of `l`. -/
def matchYearsIn (l : List Char) : Option (Nat × List Char) :=
  match takeDigits l with
  | none => none
  | some (n, r0) =>
    match litM "year" (skipWS (optPlus r0)) with
    | none => none
    | some r1 => (litM "in" (skipWS (optS r1))).map fun r => (n, r)

/-- `over\s*(\d+)\s*years?` at the start of `l`. -/
def matchOverYears (l : List Char) : Option (Nat × List Char) :=
  match litM "over" l with
  | none => none
  | some r0 =>
    match takeDigits (skipWS r0) with
    | none => none
    | some (n, r1) => (litM "year" (skipWS r1)).map fun r => (n, optS r)

/-- `more\s*than\s*(\d+)\s*years?` at the start of `l`. -/
def matchMoreThanYears (l : List Char) : Option (Nat × List Char) :=
  match litM "more" l with
  | none => none
  | some r0 =>
    match litM "than" (skipWS r0) with
    | none => none
    | some r1 =>
      match takeDigits (skipWS r1) with
      | none => none
      | some (n, r2) => (litM "year" (skipWS r2)).map fun r => (n, optS r)

/-- `re.findall` capture scan with explicit recursion depth: try the pattern
at every position left to right, resuming after the end of each match (or one
character further on a non-consuming match, as `re` does). Every step strictly
shortens the text, so any `fuel ≥ length` computes the scan exactly; at
`fuel = 0` the text is already empty. -/
def scanPF (p : List Char → Option (Nat × List Char)) : Nat → List Char → List Nat
  | 0, _ => []
  | _, [] => []
  | fuel + 1, c :: rest =>
    match p (c :: rest) with
    | some (n, r) =>
      if r.length < (c :: rest).length then n :: scanPF p fuel r else n :: scanPF p fuel rest
    | none => scanPF p fuel rest

/-- `re.findall` capture scan over a whole text. -/
def scanP (p : List Char → Option (Nat × List Char)) (l : List Char) : List Nat :=
  scanPF p l.length l

/-- The `cv_years` loop: the maximum year captured by any of the four patterns
anywhere in the (already lowercased) text, `0` when nothing matches. -/
def extractYears (l : List Char) : Nat :=
  [matchYearsExp, matchYearsIn, matchOverYears, matchMoreThanYears].foldl
    (fun acc p => acc.max ((scanP p l).foldl Nat.max 0)) 0

/-- The three-branch pre-blend experience formula of
`calculate_experience_score`, with its explanation. -/
def expPre (required : Int) (cvYears : Nat) : Int × String :=
  if required ≤ (cvYears : Int) then
    (min 100 (80 + ((cvYears : Int) - required) * 5),
     toString cvYears ++ " years experience (≥" ++ toString required ++ " required)")
  else if (required : ℚ) * (8/10) ≤ (cvYears : ℚ) then
    (70 + pyInt (((cvYears : ℚ) / (required : ℚ)) * 10),
     toString cvYears ++ " years experience (close to " ++ toString required ++ " required)")
  else
    (max 30 (pyInt (((cvYears : ℚ) / (required : ℚ)) * 60)),
     toString cvYears ++ " years experience (<" ++ toString required ++ " required)")

/-- The pre-blend experience score alone. -/
def expScoreFromYears (required : Int) (cvYears : Nat) : Int :=
  (expPre required cvYears).1

/-- The confidence blend `int(score * confidence + (1 - confidence) * 70)`. -/
def expBlend (confidence : ℚ) (score : Int) : Int :=
  pyInt ((score : ℚ) * confidence + (1 - confidence) * 70)

/-- `calculate_experience_score`. `if not minimum_years` is true for both
`None` and `0`. -/
def calculate_experience_score (cv : CVAnalysis) (job : JobRequirements)
    (job_confidences : List (String × ℚ)) : Int × String :=
  match job.experience.minimum_years with
  | none => (80, "No specific experience requirement")
  | some required =>
    if required = 0 then (80, "No specific experience requirement")
    else
      ((expBlend (confGet job_confidences "experience" (8/10))
          (expScoreFromYears required
            (extractYears (cv.key_information.experience_summary.data.map Char.toLower)))),
       (expPre required
          (extractYears (cv.key_information.experience_summary.data.map Char.toLower))).2)

/-- The numeric tail of `calculate_soft_skills_score`:
`int((60 + 40 * match_ratio) * confidence + (1 - confidence) * 70)`, where the
`if job_normalized else 0` guard of `match_ratio` is the `jobLen = 0` test. -/
def softFinal (matchesN jobLen : Nat) (confidence : ℚ) : Int :=
  pyInt ((60 + (if jobLen = 0 then 0 else (matchesN : ℚ) / (jobLen : ℚ)) * 40) * confidence +
    (1 - confidence) * 70)

/-- `calculate_soft_skills_score`: normalized exact-set intersection over the
required soft skills, base `60 + 40 * matchRatio`, blended toward 70 with the
`required_skills` confidence (default 0.7); 75 when nothing is required. -/
def calculate_soft_skills_score (cv_soft job_soft : List String)
    (job_confidences : List (String × ℚ)) : Int × String :=
  if job_soft = [] then (75, "No specific soft skills specified")
  else
    let cvN := (cv_soft.map fun s => pyStripStr (pyLowerStr s)).dedup
    let jobN := (job_soft.map fun s => pyStripStr (pyLowerStr s)).dedup
    let matchesN := (cvN.filter fun x => jobN.contains x).length
    (softFinal matchesN jobN.length (confGet job_confidences "required_skills" (7/10)),
     toString matchesN ++ "/" ++ toString jobN.length ++ " soft skills matched")

/-- Stable ascending insertion for strings (Python `sorted`, code-point order). -/
def insertAscStr (x : String) : List String → List String
  | [] => [x]
  | y :: ys => if y < x then y :: insertAscStr x ys else x :: y :: ys

/-- Python `sorted` on a list of strings. -/
def sortStrAsc : List String → List String
  | [] => []
  | x :: xs => insertAscStr x (sortStrAsc xs)

/-- `sorted(set(...))`. -/
def pySortedSet (l : List String) : List String := sortStrAsc l.dedup

/-- The `_norm_cert` alias table of `calculate_weighted_score`. -/
def certAliases : List (String × String) := [
  ("aws ccp", "aws cloud practitioner"),
  ("aws cloud practitioner", "aws cloud practitioner"),
  ("aws certified cloud practitioner", "aws cloud practitioner"),
  ("pmp", "project management professional"),
  ("project management professional", "project management professional"),
  ("prince2", "prince2 practitioner"),
  ("prince2 practitioner", "prince2 practitioner"),
  ("scrum master", "scrum master"),
  ("psm", "scrum master"),
  ("psm i", "scrum master"),
  ("az-900", "microsoft azure fundamentals"),
  ("azure fundamentals", "microsoft azure fundamentals"),
  ("microsoft azure fundamentals", "microsoft azure fundamentals")]

/-- `_norm_cert`. -/
def normCert (s : String) : String :=
  if s = "" then ""
  else
    ((certAliases.find? fun p => p.1 == pyStripStr (pyLowerStr s)).map Prod.snd).getD
      (pyStripStr (pyLowerStr s))

/-- The `_extend_unique` helper: append the non-empty, not-yet-present items. -/
def extendUnique (acc seq : List String) : List String :=
  seq.foldl (fun acc x => if x ≠ "" ∧ ¬ acc.contains x then acc ++ [x] else acc) acc

/-- `calculate_weighted_score`: the composed engine.
`getattr(job_requirements, 'confidences', {})` always yields the default: the
pydantic `JobRequirements` model declares no `confidences` field, so the
confidence map below is the empty map. -/
def calculate_weighted_score (cv : CVAnalysis) (job : JobRequirements) : MatchingScore :=
  let industry := infer_industry job
  let profile := profileFor industry
  let job_confidences : List (String × ℚ) := []
  let tech := calculate_technical_skills_score cv.key_information.technical_skills
    job.required_skills.technical job_confidences
  let techScore := tech.1
  let matchedTech := tech.2.2
  let soft := calculate_soft_skills_score cv.key_information.soft_skills
    job.required_skills.soft job_confidences
  let expS := calculate_experience_score cv job job_confidences
  let qualScore : Int := 75
  let respScore : Int := 70
  let overallScore := pyInt ((techScore : ℚ) * profile.technical_skills_weight +
    (soft.1 : ℚ) * profile.soft_skills_weight +
    (expS.1 : ℚ) * profile.experience_weight +
    (qualScore : ℚ) * profile.qualifications_weight +
    (respScore : ℚ) * profile.responsibilities_weight)
  let overallExp := "Weighted score using " ++ industry ++ " profile. Tech: " ++
    toString techScore ++ " (" ++ fmtPct profile.technical_skills_weight ++
    "), Experience: " ++ toString expS.1 ++ " (" ++ fmtPct profile.experience_weight ++ ")"
  let cvSoftN := (cv.key_information.soft_skills.map fun s => pyStripStr (pyLowerStr s)).dedup
  let jobSoftN := (job.required_skills.soft.map fun s => pyStripStr (pyLowerStr s)).dedup
  let matchedSoft := sortStrAsc ((cvSoftN.filter fun s => jobSoftN.contains s).filter
    fun s => s ≠ "")
  let matchedSoftDisplay := matchedSoft.map pyTitle
  let cvQualsN := (cv.key_information.certifications.map normCert).dedup
  let jobQualsN := (job.qualifications.map normCert).dedup
  let matchedQuals := sortStrAsc ((cvQualsN.filter fun q => jobQualsN.contains q).filter
    fun q => q ≠ "")
  let matchedQualsDisplay := matchedQuals.map pyTitle
  let cvLangsN := (cv.key_information.languages.map fun l => pyLowerStr (pyStripStr l)).dedup
  let jobLangsN := (job.languages.map fun l => pyLowerStr (pyStripStr l)).dedup
  let matchedLangs := sortStrAsc (cvLangsN.filter fun l => jobLangsN.contains l)
  let cvRespsN := (cv.key_information.responsibilities.map
    fun r => pyLowerStr (pyStripStr r)).dedup
  let jobRespsN := (job.responsibilities.map fun r => pyLowerStr (pyStripStr r)).dedup
  let matchedResps := sortStrAsc ((cvRespsN.filter fun r => jobRespsN.contains r).filter
    fun r => r ≠ "")
  let gaps := (if techScore < 60 then ["Technical skills gap"] else []) ++
    (if expS.1 < 60 then ["Experience below requirements"] else []) ++
    (if soft.1 < 60 then ["Soft skills development needed"] else [])
  let strengths := (extendUnique (extendUnique (extendUnique (extendUnique (extendUnique []
    matchedTech) matchedSoftDisplay) matchedQualsDisplay) matchedLangs) matchedResps).take 10
  let missingTech := pySortedSet (job.required_skills.technical.filter
    fun s => ¬ matchedTech.contains s)
  let missingSoft := pySortedSet (job.required_skills.soft.filter
    fun s => ¬ jobSoftN.contains (pyStripStr (pyLowerStr s)))
  let missingQuals := sortStrAsc (jobQualsN.filter fun q => ¬ cvQualsN.contains q)
  let missingLangs := sortStrAsc (jobLangsN.filter fun l => ¬ cvLangsN.contains l)
  let missingResps := sortStrAsc (jobRespsN.filter fun r => ¬ cvRespsN.contains r)
  let topMissing := missingTech.take 3 ++ (missingSoft.take 2).map pyTitle ++
    (match job.experience.minimum_years with
     | some r => if expS.1 < 70 ∧ r ≠ 0 then [toString r ++ "+ years experience"] else []
     | none => []) ++
    (missingQuals.take 2).map pyTitle ++ (missingLangs.take 2).map pyTitle ++
    missingResps.take 2
  { overall_match_score := overallScore
    overall_explanation := overallExp
    technical_skills_score := techScore
    technical_skills_explanation := tech.2.1
    soft_skills_score := soft.1
    soft_skills_explanation := soft.2
    experience_score := expS.1
    experience_explanation := expS.2
    qualifications_score := qualScore
    qualifications_explanation := "Qualifications assessment needs enhancement"
    key_responsibilities_score := respScore
    key_responsibilities_explanation := "Responsibilities matching needs enhancement"
    improvement_suggestions := [if topMissing ≠ [] then
        "Consider developing skills in: " ++ String.intercalate ", " (topMissing.take 3)
      else "Strong overall profile"]
    strengths := strengths
    gaps := gaps }

/-! ### Validator (`validation.py`, matching-score part) -/

/-- `ValidationIssue`. -/
structure ValidationIssue where
  field : String
  issue_type : String
  description : String
  severity : String
  suggested_fix : Option String := none
deriving DecidableEq, Repr

/-- `ValidationResult` (`corrected_data` is always `None` in this code path). -/
structure ValidationResult where
  is_valid : Bool
  confidence_score : ℚ
  issues : List ValidationIssue
deriving DecidableEq, Repr

/-- `_check_component_score_consistency`: flag a gap of more than 20 points
between the overall score and the plain average of the five components. The
average of five integers has exactly one decimal digit, so the `{avg:.1f}`
float formatting in the description equals the exact value rendered in tenths
(`2 * sum` tenths); `toNat` is harmless since pydantic bounds every component
at 0 or above. -/
def check_component_score_consistency (score : MatchingScore) : List ValidationIssue :=
  let sum : Int := score.technical_skills_score + score.soft_skills_score +
    score.experience_score + score.qualifications_score +
    score.key_responsibilities_score
  let avg : ℚ := (sum : ℚ) / 5
  if |avg - (score.overall_match_score : ℚ)| > 20 then
    [⟨"overall_match_score", "inconsistency",
      "Overall score (" ++ toString score.overall_match_score ++
        ") differs significantly from component average (" ++
        fmtTenths (2 * sum).toNat ++ ")", "medium", none⟩]
  else []

/-- `getattr(score, 'matched_skills', None)`: the `MatchingScore` model
declares no `matched_skills` field, so the dynamic attribute lookup always
yields `None`. -/
def matchedSkillsAttr (_ : MatchingScore) : Option (List String) := none

/-- `_check_skill_matching_consistency`: when a `matched_skills` list is
exposed, every entry must occur (case-insensitively) in both the CV's and the
job's technical skills; with the guarded lookup yielding `None` the whole
check is skipped. -/
def check_skill_matching_consistency (score : MatchingScore) (cv : CVAnalysis)
    (job : JobRequirements) : List ValidationIssue :=
  let cvT := (cv.key_information.technical_skills.map pyLowerStr).dedup
  let jobT := (job.required_skills.technical.map pyLowerStr).dedup
  match matchedSkillsAttr score with
  | none => []
  | some l =>
    ((l.map pyLowerStr).dedup).flatMap fun s =>
      (if ¬ cvT.contains s then
        [⟨"matched_skills", "invalid", "Matched skill '" ++ s ++ "' not found in CV",
          "high", none⟩] else []) ++
      (if ¬ jobT.contains s then
        [⟨"matched_skills", "invalid",
          "Matched skill '" ++ s ++ "' not found in job requirements", "high", none⟩]
       else [])

/-- `_check_explanation_quality`: overall, technical and experience
explanations shorter than 10 characters after stripping. -/
def check_explanation_quality (score : MatchingScore) : List ValidationIssue :=
  (if (pyStripStr score.overall_explanation).length < 10 then
    [⟨"overall_explanation", "missing", "Very brief explanation provided", "low", none⟩]
   else []) ++
  (if (pyStripStr score.technical_skills_explanation).length < 10 then
    [⟨"technical_skills_explanation", "missing", "Very brief explanation provided",
      "low", none⟩]
   else []) ++
  (if (pyStripStr score.experience_explanation).length < 10 then
    [⟨"experience_explanation", "missing", "Very brief explanation provided", "low", none⟩]
   else [])

/-- `validate_matching_score`. -/
def validate_matching_score (score : MatchingScore) (cv : CVAnalysis)
    (job : JobRequirements) : ValidationResult :=
  let issues := check_component_score_consistency score ++
    check_skill_matching_consistency score cv job ++ check_explanation_quality score
  let criticalCount := (issues.filter fun i => i.severity == "critical").length
  let confidence : ℚ := 85/100 - (criticalCount : ℚ) * (15/100) -
    (issues.length : ℚ) * (2/100)
  ⟨criticalCount = 0, max 0 (min 1 confidence), issues⟩

/-! ### Concrete records used as witness inputs -/

/-- A candidate with two years of experience and otherwise empty fields. -/
def wCv2 : CVAnalysis :=
  { candidate_suitability := { overall_fit_score := 5, justification := "adequate" }
    key_information := { experience_summary := "2 years experience" }
    recommendations := {} }

/-- A candidate whose summary claims three years of experience. -/
def wCv3 : CVAnalysis :=
  { candidate_suitability := { overall_fit_score := 5, justification := "adequate" }
    key_information := { experience_summary := "3 years experience" }
    recommendations := {} }

/-- A candidate with seven years of experience. -/
def wCv7 : CVAnalysis :=
  { candidate_suitability := { overall_fit_score := 8, justification := "strong" }
    key_information := { experience_summary := "7 years of experience" }
    recommendations := {} }

/-- A job with no requirements at all. -/
def wJob0 : JobRequirements := {}

/-- A job requiring a minimum of five years of experience. -/
def wJob5 : JobRequirements := { experience := { minimum_years := some 5 } }

/-! ### Arithmetic facts about `pyInt` and the score formulas -/

theorem pyInt_eq_floor {q : ℚ} (h : 0 ≤ q) : pyInt q = ⌊q⌋ := if_pos h

theorem le_pyInt {n : Int} {q : ℚ} (h0 : 0 ≤ q) (h : (n : ℚ) ≤ q) : n ≤ pyInt q := by
  rw [pyInt_eq_floor h0]; exact Int.le_floor.2 h

theorem pyInt_le {n : Int} {q : ℚ} (h0 : 0 ≤ q) (h : q ≤ (n : ℚ)) : pyInt q ≤ n := by
  rw [pyInt_eq_floor h0]
  calc ⌊q⌋ ≤ ⌊(n : ℚ)⌋ := Int.floor_le_floor h
    _ = n := Int.floor_intCast n

theorem pyInt_lt {n : Int} {q : ℚ} (h0 : 0 ≤ q) (h : q < (n : ℚ)) : pyInt q < n := by
  rw [pyInt_eq_floor h0]; exact Int.floor_lt.2 h

theorem pyInt_mono {q1 q2 : ℚ} (h : q1 ≤ q2) : pyInt q1 ≤ pyInt q2 := by
  unfold pyInt
  split
  · rw [if_pos (le_trans (by assumption) h)]
    exact Int.floor_le_floor h
  · split
    · have : ⌊-q1⌋ ≥ 0 := Int.floor_nonneg.2 (by linarith)
      have : 0 ≤ ⌊q2⌋ := Int.floor_nonneg.2 (by assumption)
      omega
    · have : ⌊-q2⌋ ≤ ⌊-q1⌋ := Int.floor_le_floor (by linarith)
      omega

theorem techFinal_bounds (mc tot rc : Nat) :
    14 ≤ techFinal mc tot rc (8/10) ∧ techFinal mc tot rc (8/10) ≤ 100 := by
  unfold techFinal
  have hb : (0 : ℚ) ≤ ((mc : ℚ) + (rc : ℚ) * (3/10)) / (tot : ℚ) := by positivity
  constructor
  · apply le_min (by norm_num)
    apply le_pyInt (by nlinarith) (by push_cast; nlinarith)
  · exact min_le_left _ _

theorem softFinal_ge_60 (mN jL : Nat) {c : ℚ} (h0 : 0 ≤ c) (h1 : c ≤ 1) :
    60 ≤ softFinal mN jL c := by
  unfold softFinal
  have hf : (0 : ℚ) ≤ (if jL = 0 then 0 else (mN : ℚ) / (jL : ℚ)) := by
    split
    · norm_num
    · positivity
  apply le_pyInt (by nlinarith [mul_nonneg hf h0]) (by push_cast; nlinarith [mul_nonneg hf h0])

theorem softFinal_le_100 {mN jL : Nat} (hml : mN ≤ jL) {c : ℚ} (h0 : 0 ≤ c) (h1 : c ≤ 1) :
    softFinal mN jL c ≤ 100 := by
  unfold softFinal
  have hf0 : (0 : ℚ) ≤ (if jL = 0 then 0 else (mN : ℚ) / (jL : ℚ)) := by
    split
    · norm_num
    · positivity
  have hf1 : (if jL = 0 then 0 else (mN : ℚ) / (jL : ℚ)) ≤ 1 := by
    split
    · norm_num
    · rw [div_le_one (by positivity)]
      exact_mod_cast hml
  apply pyInt_le (by nlinarith [mul_nonneg hf0 h0])
  push_cast
  nlinarith [mul_le_mul_of_nonneg_right hf1 h0, mul_nonneg hf0 h0]

theorem expScore_eq_b1 {r : Int} {y : Nat} (h : r ≤ (y : Int)) :
    expScoreFromYears r y = min 100 (80 + ((y : Int) - r) * 5) := by
  unfold expScoreFromYears expPre
  rw [if_pos h]

theorem expScore_eq_b2 {r : Int} {y : Nat} (h1 : ¬ r ≤ (y : Int))
    (h2 : (r : ℚ) * (8/10) ≤ (y : ℚ)) :
    expScoreFromYears r y = 70 + pyInt (((y : ℚ) / (r : ℚ)) * 10) := by
  unfold expScoreFromYears expPre
  rw [if_neg h1, if_pos h2]

theorem expScore_eq_b3 {r : Int} {y : Nat} (h1 : ¬ r ≤ (y : Int))
    (h2 : ¬ (r : ℚ) * (8/10) ≤ (y : ℚ)) :
    expScoreFromYears r y = max 30 (pyInt (((y : ℚ) / (r : ℚ)) * 60)) := by
  unfold expScoreFromYears expPre
  rw [if_neg h1, if_neg h2]

theorem expScore_b1_bounds {r : Int} {y : Nat} (h : r ≤ (y : Int)) :
    80 ≤ expScoreFromYears r y ∧ expScoreFromYears r y ≤ 100 := by
  rw [expScore_eq_b1 h]
  omega

theorem expScore_b2_bounds {r : Int} {y : Nat} (h1 : ¬ r ≤ (y : Int))
    (h2 : (r : ℚ) * (8/10) ≤ (y : ℚ)) :
    78 ≤ expScoreFromYears r y ∧ expScoreFromYears r y ≤ 79 := by
  rw [expScore_eq_b2 h1 h2]
  have hyr : (y : ℚ) < (r : ℚ) := by exact_mod_cast lt_of_not_le h1
  have hy0 : (0 : ℚ) ≤ (y : ℚ) := by positivity
  have hr0 : (0 : ℚ) < (r : ℚ) := lt_of_le_of_lt hy0 hyr
  have harg8 : (8 : ℚ) ≤ ((y : ℚ) / (r : ℚ)) * 10 := by
    rw [div_mul_eq_mul_div, le_div_iff₀ hr0]
    linarith
  have harg10 : ((y : ℚ) / (r : ℚ)) * 10 < 10 := by
    rw [div_mul_eq_mul_div, div_lt_iff₀ hr0]
    linarith
  have l8 : (8 : Int) ≤ pyInt (((y : ℚ) / (r : ℚ)) * 10) := le_pyInt (by linarith) (by push_cast; linarith)
  have l9 : pyInt (((y : ℚ) / (r : ℚ)) * 10) < 10 := pyInt_lt (by linarith) (by push_cast; linarith)
  omega

theorem expScore_b3_bounds {r : Int} {y : Nat} (h1 : ¬ r ≤ (y : Int))
    (h2 : ¬ (r : ℚ) * (8/10) ≤ (y : ℚ)) :
    30 ≤ expScoreFromYears r y ∧ expScoreFromYears r y ≤ 47 := by
  rw [expScore_eq_b3 h1 h2]
  have hy8 : (y : ℚ) < (r : ℚ) * (8/10) := lt_of_not_le h2
  have hy0 : (0 : ℚ) ≤ (y : ℚ) := by positivity
  have hr0 : (0 : ℚ) < (r : ℚ) := by nlinarith
  have harg : ((y : ℚ) / (r : ℚ)) * 60 < 48 := by
    rw [div_mul_eq_mul_div, div_lt_iff₀ hr0]
    nlinarith
  have harg0 : (0 : ℚ) ≤ ((y : ℚ) / (r : ℚ)) * 60 := by positivity
  have l47 : pyInt (((y : ℚ) / (r : ℚ)) * 60) < 48 := pyInt_lt harg0 (by push_cast; linarith)
  omega

theorem expScoreFromYears_bounds (r : Int) (y : Nat) :
    30 ≤ expScoreFromYears r y ∧ expScoreFromYears r y ≤ 100 := by
  by_cases h1 : r ≤ (y : Int)
  · have := expScore_b1_bounds h1
    omega
  · by_cases h2 : (r : ℚ) * (8/10) ≤ (y : ℚ)
    · have := expScore_b2_bounds h1 h2
      omega
    · have := expScore_b3_bounds h1 h2
      omega

theorem expBlend_bounds {s : Int} (h30 : 30 ≤ s) (h100 : s ≤ 100) :
    38 ≤ expBlend (8/10) s ∧ expBlend (8/10) s ≤ 100 := by
  unfold expBlend
  have hs30 : (30 : ℚ) ≤ (s : ℚ) := by exact_mod_cast h30
  have hs100 : (s : ℚ) ≤ 100 := by exact_mod_cast h100
  constructor
  · exact le_pyInt (by linarith) (by push_cast; linarith)
  · exact pyInt_le (by linarith) (by push_cast; linarith)

theorem expScore_mono (r : Int) {y1 y2 : Nat} (h : y1 ≤ y2) :
    expScoreFromYears r y1 ≤ expScoreFromYears r y2 := by
  have hyy : (y1 : Int) ≤ (y2 : Int) := by exact_mod_cast h
  have hyyQ : (y1 : ℚ) ≤ (y2 : ℚ) := by exact_mod_cast h
  by_cases hb2 : r ≤ (y2 : Int)
  · by_cases hb1 : r ≤ (y1 : Int)
    · rw [expScore_eq_b1 hb1, expScore_eq_b1 hb2]
      omega
    · by_cases hc1 : (r : ℚ) * (8/10) ≤ (y1 : ℚ)
      · have := expScore_b2_bounds hb1 hc1
        have := expScore_b1_bounds hb2
        omega
      · have := expScore_b3_bounds hb1 hc1
        have := expScore_b1_bounds hb2
        omega
  · have hb1 : ¬ r ≤ (y1 : Int) := fun hc => hb2 (le_trans hc hyy)
    have hy2r : (y2 : ℚ) < (r : ℚ) := by exact_mod_cast lt_of_not_le hb2
    have hr0 : (0 : ℚ) < (r : ℚ) := lt_of_le_of_lt (by positivity) hy2r
    by_cases hc2 : (r : ℚ) * (8/10) ≤ (y2 : ℚ)
    · by_cases hc1 : (r : ℚ) * (8/10) ≤ (y1 : ℚ)
      · rw [expScore_eq_b2 hb1 hc1, expScore_eq_b2 hb2 hc2]
        have : ((y1 : ℚ) / (r : ℚ)) * 10 ≤ ((y2 : ℚ) / (r : ℚ)) * 10 := by
          apply mul_le_mul_of_nonneg_right _ (by norm_num)
          exact (div_le_div_iff_of_pos_right hr0).2 hyyQ
        have := pyInt_mono this
        omega
      · have := expScore_b3_bounds hb1 hc1
        have := expScore_b2_bounds hb2 hc2
        omega
    · have hc1 : ¬ (r : ℚ) * (8/10) ≤ (y1 : ℚ) := fun hc => hc2 (le_trans hc hyyQ)
      rw [expScore_eq_b3 hb1 hc1, expScore_eq_b3 hb2 hc2]
      have : ((y1 : ℚ) / (r : ℚ)) * 60 ≤ ((y2 : ℚ) / (r : ℚ)) * 60 := by
        apply mul_le_mul_of_nonneg_right _ (by norm_num)
        exact (div_le_div_iff_of_pos_right hr0).2 hyyQ
      have := pyInt_mono this
      omega

theorem expBlend_mono {c : ℚ} (hc : 0 ≤ c) {s1 s2 : Int} (h : s1 ≤ s2) :
    expBlend c s1 ≤ expBlend c s2 := by
  unfold expBlend
  apply pyInt_mono
  have : (s1 : ℚ) ≤ (s2 : ℚ) := by exact_mod_cast h
  nlinarith

theorem calculate_technical_skills_score_bounds (cvS jobS : List String) :
    14 ≤ (calculate_technical_skills_score cvS jobS []).1 ∧
    (calculate_technical_skills_score cvS jobS []).1 ≤ 100 := by
  unfold calculate_technical_skills_score
  split
  · norm_num
  · dsimp only
    split
    · norm_num
    · exact techFinal_bounds _ _ _

theorem calculate_soft_skills_score_bounds (cvS jobS : List String) :
    60 ≤ (calculate_soft_skills_score cvS jobS []).1 ∧
    (calculate_soft_skills_score cvS jobS []).1 ≤ 100 := by
  unfold calculate_soft_skills_score
  split
  · norm_num
  · dsimp only
    have hnd : ((cvS.map fun s => pyStripStr (pyLowerStr s)).dedup.filter
        (fun x => (jobS.map fun s => pyStripStr (pyLowerStr s)).dedup.contains x)).Nodup :=
      (List.nodup_dedup _).filter _
    have hsub : ((cvS.map fun s => pyStripStr (pyLowerStr s)).dedup.filter
        (fun x => (jobS.map fun s => pyStripStr (pyLowerStr s)).dedup.contains x)) ⊆
        (jobS.map fun s => pyStripStr (pyLowerStr s)).dedup := by
      intro x hx
      have := List.of_mem_filter hx
      exact List.mem_of_elem_eq_true this
    have hml := (List.subperm_of_subset hnd hsub).length_le
    have hc : confGet ([] : List (String × ℚ)) "required_skills" (7/10) = 7/10 := rfl
    rw [hc]
    exact ⟨softFinal_ge_60 _ _ (by norm_num) (by norm_num),
      softFinal_le_100 hml (by norm_num) (by norm_num)⟩

theorem calculate_experience_score_bounds (cv : CVAnalysis) (job : JobRequirements) :
    38 ≤ (calculate_experience_score cv job []).1 ∧
    (calculate_experience_score cv job []).1 ≤ 100 := by
  unfold calculate_experience_score
  cases job.experience.minimum_years with
  | none => norm_num
  | some r =>
    dsimp only
    split
    · norm_num
    · have hb := expScoreFromYears_bounds r
        (extractYears (cv.key_information.experience_summary.data.map Char.toLower))
      exact expBlend_bounds hb.1 hb.2

theorem profileFor_good (ind : String) :
    0 ≤ (profileFor ind).technical_skills_weight ∧
    0 ≤ (profileFor ind).soft_skills_weight ∧
    0 ≤ (profileFor ind).experience_weight ∧
    0 ≤ (profileFor ind).qualifications_weight ∧
    0 ≤ (profileFor ind).responsibilities_weight ∧
    (profileFor ind).sumWeights = 1 := by
  unfold profileFor
  cases hf : WEIGHTING_PROFILES.find? (fun p => p.1 == ind) with
  | none =>
    simp only [Option.map_none', Option.getD_none]
    refine ⟨by norm_num, by norm_num, by norm_num, by norm_num, by norm_num, ?_⟩
    unfold WeightingProfile.sumWeights
    norm_num
  | some p =>
    simp only [Option.map_some', Option.getD_some]
    have hm := List.mem_of_find?_eq_some hf
    unfold WEIGHTING_PROFILES at hm
    simp only [List.mem_cons, List.not_mem_nil, or_false] at hm
    rcases hm with h | h | h | h | h | h <;> subst h <;>
      refine ⟨by norm_num, by norm_num, by norm_num, by norm_num, by norm_num, ?_⟩ <;>
      norm_num [WeightingProfile.sumWeights]

/-! ### Field equations of the composed engine (definitional) -/

theorem cws_tech_eq (cv : CVAnalysis) (job : JobRequirements) :
    (calculate_weighted_score cv job).technical_skills_score =
      (calculate_technical_skills_score cv.key_information.technical_skills
        job.required_skills.technical []).1 := rfl

theorem cws_soft_eq (cv : CVAnalysis) (job : JobRequirements) :
    (calculate_weighted_score cv job).soft_skills_score =
      (calculate_soft_skills_score cv.key_information.soft_skills
        job.required_skills.soft []).1 := rfl

theorem cws_exp_eq (cv : CVAnalysis) (job : JobRequirements) :
    (calculate_weighted_score cv job).experience_score =
      (calculate_experience_score cv job []).1 := rfl

theorem cws_overall_eq (cv : CVAnalysis) (job : JobRequirements) :
    (calculate_weighted_score cv job).overall_match_score =
      pyInt (((calculate_weighted_score cv job).technical_skills_score : ℚ) *
          (profileFor (infer_industry job)).technical_skills_weight +
        ((calculate_weighted_score cv job).soft_skills_score : ℚ) *
          (profileFor (infer_industry job)).soft_skills_weight +
        ((calculate_weighted_score cv job).experience_score : ℚ) *
          (profileFor (infer_industry job)).experience_weight +
        ((75 : Int) : ℚ) * (profileFor (infer_industry job)).qualifications_weight +
        ((70 : Int) : ℚ) * (profileFor (infer_industry job)).responsibilities_weight) := rfl

theorem cws_gaps_eq (cv : CVAnalysis) (job : JobRequirements) :
    (calculate_weighted_score cv job).gaps =
      (if (calculate_weighted_score cv job).technical_skills_score < 60 then
        ["Technical skills gap"] else []) ++
      (if (calculate_weighted_score cv job).experience_score < 60 then
        ["Experience below requirements"] else []) ++
      (if (calculate_weighted_score cv job).soft_skills_score < 60 then
        ["Soft skills development needed"] else []) := rfl

/-- The weighted sum of five scores in `[lo, 100]` under nonnegative weights
summing to 1 lies in `[lo, 100]`. -/
theorem weightedSum_bounds {w1 w2 w3 w4 w5 s1 s2 s3 s4 s5 lo : ℚ}
    (hw1 : 0 ≤ w1) (hw2 : 0 ≤ w2) (hw3 : 0 ≤ w3) (hw4 : 0 ≤ w4) (hw5 : 0 ≤ w5)
    (hsum : w1 + w2 + w3 + w4 + w5 = 1)
    (h1 : lo ≤ s1 ∧ s1 ≤ 100) (h2 : lo ≤ s2 ∧ s2 ≤ 100) (h3 : lo ≤ s3 ∧ s3 ≤ 100)
    (h4 : lo ≤ s4 ∧ s4 ≤ 100) (h5 : lo ≤ s5 ∧ s5 ≤ 100) :
    lo ≤ s1 * w1 + s2 * w2 + s3 * w3 + s4 * w4 + s5 * w5 ∧
    s1 * w1 + s2 * w2 + s3 * w3 + s4 * w4 + s5 * w5 ≤ 100 := by
  constructor
  · have e1 := mul_le_mul_of_nonneg_right h1.1 hw1
    have e2 := mul_le_mul_of_nonneg_right h2.1 hw2
    have e3 := mul_le_mul_of_nonneg_right h3.1 hw3
    have e4 := mul_le_mul_of_nonneg_right h4.1 hw4
    have e5 := mul_le_mul_of_nonneg_right h5.1 hw5
    nlinarith
  · have e1 := mul_le_mul_of_nonneg_right h1.2 hw1
    have e2 := mul_le_mul_of_nonneg_right h2.2 hw2
    have e3 := mul_le_mul_of_nonneg_right h3.2 hw3
    have e4 := mul_le_mul_of_nonneg_right h4.2 hw4
    have e5 := mul_le_mul_of_nonneg_right h5.2 hw5
    nlinarith

/-- Rational-cast bounds of the three computed component scores. -/
theorem component_bounds_q (cv : CVAnalysis) (job : JobRequirements) :
    ((14 : ℚ) ≤ ((calculate_weighted_score cv job).technical_skills_score : ℚ) ∧
      ((calculate_weighted_score cv job).technical_skills_score : ℚ) ≤ 100) ∧
    ((60 : ℚ) ≤ ((calculate_weighted_score cv job).soft_skills_score : ℚ) ∧
      ((calculate_weighted_score cv job).soft_skills_score : ℚ) ≤ 100) ∧
    ((38 : ℚ) ≤ ((calculate_weighted_score cv job).experience_score : ℚ) ∧
      ((calculate_weighted_score cv job).experience_score : ℚ) ≤ 100) := by
  have ht := calculate_technical_skills_score_bounds cv.key_information.technical_skills
    job.required_skills.technical
  have hs := calculate_soft_skills_score_bounds cv.key_information.soft_skills
    job.required_skills.soft
  have he := calculate_experience_score_bounds cv job
  rw [cws_tech_eq, cws_soft_eq, cws_exp_eq]
  refine ⟨⟨?_, ?_⟩, ⟨?_, ?_⟩, ⟨?_, ?_⟩⟩ <;> exact_mod_cast (by omega : _)

/-- C1: For every `CVAnalysis` and `JobRequirements`, the `MatchingScore`
returned by `calculate_weighted_score` has every score field an integer in
`[0, 100]`; its qualifications and responsibilities scores are the fixed
placeholders 75 and 70; and its `overall_match_score` equals the floor of the
weighted sum of the five dimension scores under the `WeightingProfile`
selected by `infer_industry` (with fallback to the `"default"` profile,
realized by `profileFor`). -/
theorem C1_score_fields_in_range_and_overall_is_floor_of_weighted_sum
    (cv : CVAnalysis) (job : JobRequirements) :
    (0 ≤ (calculate_weighted_score cv job).overall_match_score ∧
      (calculate_weighted_score cv job).overall_match_score ≤ 100) ∧
    (0 ≤ (calculate_weighted_score cv job).technical_skills_score ∧
      (calculate_weighted_score cv job).technical_skills_score ≤ 100) ∧
    (0 ≤ (calculate_weighted_score cv job).soft_skills_score ∧
      (calculate_weighted_score cv job).soft_skills_score ≤ 100) ∧
    (0 ≤ (calculate_weighted_score cv job).experience_score ∧
      (calculate_weighted_score cv job).experience_score ≤ 100) ∧
    (calculate_weighted_score cv job).qualifications_score = 75 ∧
    (calculate_weighted_score cv job).key_responsibilities_score = 70 ∧
    (calculate_weighted_score cv job).overall_match_score =
      ⌊((calculate_weighted_score cv job).technical_skills_score : ℚ) *
          (profileFor (infer_industry job)).technical_skills_weight +
        ((calculate_weighted_score cv job).soft_skills_score : ℚ) *
          (profileFor (infer_industry job)).soft_skills_weight +
        ((calculate_weighted_score cv job).experience_score : ℚ) *
          (profileFor (infer_industry job)).experience_weight +
        ((calculate_weighted_score cv job).qualifications_score : ℚ) *
          (profileFor (infer_industry job)).qualifications_weight +
        ((calculate_weighted_score cv job).key_responsibilities_score : ℚ) *
          (profileFor (infer_industry job)).responsibilities_weight⌋ := by
  obtain ⟨p1, p2, p3, p4, p5, psum⟩ := profileFor_good (infer_industry job)
  obtain ⟨ht, hs, he⟩ := component_bounds_q cv job
  have h1b : (0 : ℚ) ≤ ((calculate_weighted_score cv job).technical_skills_score : ℚ) ∧
      ((calculate_weighted_score cv job).technical_skills_score : ℚ) ≤ 100 :=
    ⟨by linarith [ht.1], ht.2⟩
  have h2b : (0 : ℚ) ≤ ((calculate_weighted_score cv job).soft_skills_score : ℚ) ∧
      ((calculate_weighted_score cv job).soft_skills_score : ℚ) ≤ 100 :=
    ⟨by linarith [hs.1], hs.2⟩
  have h3b : (0 : ℚ) ≤ ((calculate_weighted_score cv job).experience_score : ℚ) ∧
      ((calculate_weighted_score cv job).experience_score : ℚ) ≤ 100 :=
    ⟨by linarith [he.1], he.2⟩
  have h4b : (0 : ℚ) ≤ ((75 : Int) : ℚ) ∧ ((75 : Int) : ℚ) ≤ 100 := by norm_num
  have h5b : (0 : ℚ) ≤ ((70 : Int) : ℚ) ∧ ((70 : Int) : ℚ) ≤ 100 := by norm_num
  have hsum := weightedSum_bounds p1 p2 p3 p4 p5 psum h1b h2b h3b h4b h5b
  have hoverall := cws_overall_eq cv job
  have hq : (calculate_weighted_score cv job).qualifications_score = 75 := rfl
  have hr : (calculate_weighted_score cv job).key_responsibilities_score = 70 := rfl
  push_cast at hsum
  refine ⟨?_, ⟨?_, ?_⟩, ⟨?_, ?_⟩, ⟨?_, ?_⟩, hq, hr, ?_⟩
  · rw [hoverall]
    constructor
    · exact le_pyInt (by push_cast; linarith [hsum.1]) (by push_cast; linarith [hsum.1])
    · exact pyInt_le (by push_cast; linarith [hsum.1]) (by push_cast; linarith [hsum.2])
  · have h : (0 : ℚ) ≤ ((calculate_weighted_score cv job).technical_skills_score : ℚ) := by
      linarith [ht.1]
    exact_mod_cast h
  · exact_mod_cast ht.2
  · have h : (0 : ℚ) ≤ ((calculate_weighted_score cv job).soft_skills_score : ℚ) := by
      linarith [hs.1]
    exact_mod_cast h
  · exact_mod_cast hs.2
  · have h : (0 : ℚ) ≤ ((calculate_weighted_score cv job).experience_score : ℚ) := by
      linarith [he.1]
    exact_mod_cast h
  · exact_mod_cast he.2
  · rw [hoverall, hq, hr, pyInt_eq_floor (by push_cast; linarith [hsum.1])]

/-- C5: the engine never produces a `MatchingScore` with `overall_match_score`
0 while all five dimension scores are strictly positive: whenever the five
components are positive (which in fact always holds for engine output), the
floor of the weighted sum is itself positive, because every component is at
least 1 and the weights are nonnegative and sum to 1. -/
theorem C5_overall_positive_when_all_components_positive
    (cv : CVAnalysis) (job : JobRequirements)
    (h1 : 0 < (calculate_weighted_score cv job).technical_skills_score)
    (h2 : 0 < (calculate_weighted_score cv job).soft_skills_score)
    (h3 : 0 < (calculate_weighted_score cv job).experience_score)
    (h4 : 0 < (calculate_weighted_score cv job).qualifications_score)
    (h5 : 0 < (calculate_weighted_score cv job).key_responsibilities_score) :
    0 < (calculate_weighted_score cv job).overall_match_score := by
  obtain ⟨p1, p2, p3, p4, p5, psum⟩ := profileFor_good (infer_industry job)
  obtain ⟨ht, hs, he⟩ := component_bounds_q cv job
  have h1b : (1 : ℚ) ≤ ((calculate_weighted_score cv job).technical_skills_score : ℚ) ∧
      ((calculate_weighted_score cv job).technical_skills_score : ℚ) ≤ 100 :=
    ⟨by linarith [ht.1], ht.2⟩
  have h2b : (1 : ℚ) ≤ ((calculate_weighted_score cv job).soft_skills_score : ℚ) ∧
      ((calculate_weighted_score cv job).soft_skills_score : ℚ) ≤ 100 :=
    ⟨by linarith [hs.1], hs.2⟩
  have h3b : (1 : ℚ) ≤ ((calculate_weighted_score cv job).experience_score : ℚ) ∧
      ((calculate_weighted_score cv job).experience_score : ℚ) ≤ 100 :=
    ⟨by linarith [he.1], he.2⟩
  have h4b : (1 : ℚ) ≤ ((75 : Int) : ℚ) ∧ ((75 : Int) : ℚ) ≤ 100 := by norm_num
  have h5b : (1 : ℚ) ≤ ((70 : Int) : ℚ) ∧ ((70 : Int) : ℚ) ≤ 100 := by norm_num
  have hsum := weightedSum_bounds p1 p2 p3 p4 p5 psum h1b h2b h3b h4b h5b
  push_cast at hsum
  rw [cws_overall_eq cv job]
  have : (1 : Int) ≤ pyInt (((calculate_weighted_score cv job).technical_skills_score : ℚ) *
      (profileFor (infer_industry job)).technical_skills_weight +
    ((calculate_weighted_score cv job).soft_skills_score : ℚ) *
      (profileFor (infer_industry job)).soft_skills_weight +
    ((calculate_weighted_score cv job).experience_score : ℚ) *
      (profileFor (infer_industry job)).experience_weight +
    ((75 : Int) : ℚ) * (profileFor (infer_industry job)).qualifications_weight +
    ((70 : Int) : ℚ) * (profileFor (infer_industry job)).responsibilities_weight) :=
    le_pyInt (by push_cast; linarith [hsum.1]) (by push_cast; linarith [hsum.1])
  omega

/-- C5 witness: on a concrete empty job and candidate all five component
scores are positive and the overall score is positive. -/
theorem C5_overall_positive_witness :
    0 < (calculate_weighted_score wCv2 wJob0).technical_skills_score ∧
    0 < (calculate_weighted_score wCv2 wJob0).soft_skills_score ∧
    0 < (calculate_weighted_score wCv2 wJob0).experience_score ∧
    0 < (calculate_weighted_score wCv2 wJob0).qualifications_score ∧
    0 < (calculate_weighted_score wCv2 wJob0).key_responsibilities_score ∧
    0 < (calculate_weighted_score wCv2 wJob0).overall_match_score :=
  ⟨by decide, by decide, by decide, by decide, by decide,
    C5_overall_positive_when_all_components_positive wCv2 wJob0
      (by decide) (by decide) (by decide) (by decide) (by decide)⟩

/-- C9 (implicit): with any confidence value in `[0, 1]` for the
`"required_skills"` key (0.7 being the default used on an absent key),
`calculate_soft_skills_score` returns at least 60 on a non-empty requirement
list and exactly 75 on an empty one; consequently the gap string
`"Soft skills development needed"` (emitted only for a soft score below 60)
never occurs in the gaps of `calculate_weighted_score`, whose confidence map
is always empty. -/
theorem C9_soft_score_at_least_60_and_soft_gap_unreachable :
    (∀ (confs : List (String × ℚ)) (cvS jobS : List String),
      jobS ≠ [] → 0 ≤ confGet confs "required_skills" (7/10) →
      confGet confs "required_skills" (7/10) ≤ 1 →
      60 ≤ (calculate_soft_skills_score cvS jobS confs).1) ∧
    (∀ (confs : List (String × ℚ)) (cvS : List String),
      (calculate_soft_skills_score cvS [] confs).1 = 75) ∧
    (∀ (cv : CVAnalysis) (job : JobRequirements),
      "Soft skills development needed" ∉ (calculate_weighted_score cv job).gaps) := by
  refine ⟨?_, ?_, ?_⟩
  · intro confs cvS jobS hne h0 h1
    unfold calculate_soft_skills_score
    rw [if_neg hne]
    exact softFinal_ge_60 _ _ h0 h1
  · intro confs cvS
    rfl
  · intro cv job
    have hb := (calculate_soft_skills_score_bounds cv.key_information.soft_skills
      job.required_skills.soft).1
    rw [cws_gaps_eq]
    intro hmem
    rcases List.mem_append.1 hmem with hmem | hmem
    · rcases List.mem_append.1 hmem with hmem | hmem <;>
        · split at hmem
          · simp only [List.mem_singleton] at hmem
            exact absurd hmem (by decide)
          · exact absurd hmem (List.not_mem_nil _)
    · split at hmem
      · rw [cws_soft_eq] at *
        omega
      · exact absurd hmem (List.not_mem_nil _)

/-- C9 witness: a concrete in-range confidence, a non-empty soft-skill
requirement, and the score is 60 or more; the empty-requirement value is 75;
and a concrete engine run contains no soft-skills gap string. -/
theorem C9_soft_score_witness :
    ((["Teamwork"] : List String) ≠ [] ∧
      0 ≤ confGet [("required_skills", 1/2)] "required_skills" (7/10) ∧
      confGet [("required_skills", 1/2)] "required_skills" (7/10) ≤ 1 ∧
      60 ≤ (calculate_soft_skills_score [] ["Teamwork"] [("required_skills", 1/2)]).1) ∧
    (calculate_soft_skills_score [] [] [("required_skills", 1/2)]).1 = 75 ∧
    "Soft skills development needed" ∉ (calculate_weighted_score wCv2 wJob0).gaps :=
  ⟨⟨by decide, by decide, by decide,
      C9_soft_score_at_least_60_and_soft_gap_unreachable.1 [("required_skills", 1/2)] []
        ["Teamwork"] (by decide) (by decide) (by decide)⟩,
    C9_soft_score_at_least_60_and_soft_gap_unreachable.2.1 [("required_skills", 1/2)] [],
    C9_soft_score_at_least_60_and_soft_gap_unreachable.2.2 wCv2 wJob0⟩

/-- C10 (implicit): `validate_matching_score` never emits a matched-skills
consistency issue: the `MatchingScore` model defines no `matched_skills`
field, so the validator's guarded `getattr` lookup (modelled by
`matchedSkillsAttr`) yields `None`, the per-entry presence check is skipped
entirely, and no issue in the result carries the `matched_skills` field. -/
theorem C10_no_matched_skills_issue_ever
    (score : MatchingScore) (cv : CVAnalysis) (job : JobRequirements) :
    check_skill_matching_consistency score cv job = [] ∧
    ((validate_matching_score score cv job).issues.all
      fun i => i.field != "matched_skills") = true := by
  refine ⟨rfl, ?_⟩
  have hiss : (validate_matching_score score cv job).issues =
      check_component_score_consistency score ++
        check_skill_matching_consistency score cv job ++
        check_explanation_quality score := rfl
  rw [hiss]
  rw [List.all_append, List.all_append, Bool.and_eq_true, Bool.and_eq_true]
  refine ⟨⟨?_, ?_⟩, ?_⟩
  · unfold check_component_score_consistency
    dsimp only
    split <;> rfl
  · rfl
  · unfold check_explanation_quality
    rw [List.all_append, List.all_append, Bool.and_eq_true, Bool.and_eq_true]
    refine ⟨⟨?_, ?_⟩, ?_⟩ <;> (split <;> rfl)

/-- C2 counterexample: on input `"reactjs"` with threshold 0.7 the first (and
only) returned match has match type `"exact"`, not `"alias"`: `normalize_skill`
already resolves the alias to `"react"`, a canonical name, so the exact branch
fires before the alias branch is ever reached. -/
theorem C2_counterexample_reactjs_match_type_not_alias :
    (fuzzy_match_skill "reactjs" (7/10)).head?.map SkillMatch.match_type ≠ some "alias" ∧
    (fuzzy_match_skill "reactjs" (7/10)).head?.map SkillMatch.normalized = some "react" := by
  constructor
  · decide
  · decide

/-- C2 amended: `fuzzy_match_skill "reactjs" 0.7` returns the single match
`⟨"reactjs", "react", 1.0, "exact"⟩` — non-empty with normalized `"react"` as
claimed, but with match type `"exact"` and confidence 1.0 rather than the
claimed `"alias"`/0.95, because alias resolution already happens inside
`normalize_skill`. -/
theorem C2_amended_reactjs_resolves_to_exact_react :
    fuzzy_match_skill "reactjs" (7/10) =
      [{ original := "reactjs", normalized := "react", confidence := 1,
         match_type := "exact" }] := by
  decide

/-- C3 counterexample: `normalize_skill` is not idempotent. `"sklearn"`
normalizes to the canonical name `"scikit-learn"`, but normalizing that again
strips the hyphen and misses the alias table, yielding `"scikitlearn"`. -/
theorem C3_counterexample_sklearn_not_idempotent :
    normalize_skill (normalize_skill "sklearn") ≠ normalize_skill "sklearn" ∧
    normalize_skill "sklearn" = "scikit-learn" ∧
    normalize_skill "scikit-learn" = "scikitlearn" := by
  refine ⟨?_, ?_, ?_⟩ <;> decide

set_option maxRecDepth 100000 in
/-- Every canonical name in the alias table other than `"scikit-learn"` is a
fixed point of `normalize_skill` (finite check over the table). -/
theorem aliasPairs_canonical_fixed :
    (aliasPairs.all fun p => p.2 == "scikit-learn" || normalize_skill p.2 == p.2) = true := by
  decide

theorem normalize_skill_eq (s : String) (hs : s ≠ "") :
    normalize_skill s = (lookupAlias (cleanSkill s)).getD (cleanSkill s) := by
  unfold normalize_skill
  rw [if_neg hs]

/-- C3 amended: `normalize_skill` is idempotent on every input whose cleaned
form is stable under cleaning (punctuation stripping can expose leading or
trailing whitespace that a second pass would strip) and whose normalization is
not the canonical name `"scikit-learn"` (the only canonical name not fixed
under normalization, as `"sklearn"` shows); in particular every other string
the function can return is a fixed point. -/
theorem C3_amended_normalize_idempotent_on_clean_stable_inputs (s : String)
    (hclean : cleanSkill (cleanSkill s) = cleanSkill s)
    (hsk : normalize_skill s ≠ "scikit-learn") :
    normalize_skill (normalize_skill s) = normalize_skill s := by
  by_cases hs : s = ""
  · subst hs; rfl
  · rw [normalize_skill_eq s hs] at hsk ⊢
    cases hl : lookupAlias (cleanSkill s) with
    | some v =>
      rw [hl] at hsk
      simp only [Option.getD_some] at hsk ⊢
      unfold lookupAlias at hl
      obtain ⟨p, hp, hpv⟩ := Option.map_eq_some'.1 hl
      have hpm : p ∈ aliasPairs := List.mem_reverse.1 (List.mem_of_find?_eq_some hp)
      have hall := List.all_eq_true.1 aliasPairs_canonical_fixed p hpm
      rw [hpv] at hall
      simp only [Bool.or_eq_true, beq_iff_eq] at hall
      rcases hall with h | h
      · exact absurd h hsk
      · exact h
    | none =>
      simp only [Option.getD_none]
      by_cases hz : cleanSkill s = ""
      · rw [hz]; rfl
      · rw [normalize_skill_eq _ hz, hclean, hl]
        rfl

/-- C3 amended witness: `"K8s"` cleans stably, normalizes to `"kubernetes"`,
and re-normalizing gives the same value. -/
theorem C3_amended_witness_k8s :
    cleanSkill (cleanSkill "K8s") = cleanSkill "K8s" ∧
    normalize_skill "K8s" ≠ "scikit-learn" ∧
    normalize_skill (normalize_skill "K8s") = normalize_skill "K8s" :=
  ⟨by decide, by decide,
    C3_amended_normalize_idempotent_on_clean_stable_inputs "K8s" (by decide) (by decide)⟩

/-- C4: with a minimum-years requirement `r ≠ 0`, the experience score of
`calculate_experience_score` is the confidence blend of the pre-blend value
`expScoreFromYears r cvYears`, where `cvYears` is the maximum integer found in
the lowercased experience summary; the pre-blend value follows the three-branch
formula of the claim (with exact floors), and on the scenario
`minimum_years = 5`, summary `"3 years experience"`, the pre-blend value
is `max(30, floor(60*3/5)) = 36`. -/
theorem C4_experience_three_branch_formula_and_scenario
    (cv : CVAnalysis) (job : JobRequirements) (confs : List (String × ℚ)) (r : Int)
    (hmin : job.experience.minimum_years = some r) (hr : r ≠ 0) :
    (calculate_experience_score cv job confs).1 =
      expBlend (confGet confs "experience" (8/10))
        (expScoreFromYears r
          (extractYears (cv.key_information.experience_summary.data.map Char.toLower))) ∧
    (∀ y : Nat, r ≤ (y : Int) →
      expScoreFromYears r y = min 100 (80 + ((y : Int) - r) * 5)) ∧
    (∀ y : Nat, ¬ r ≤ (y : Int) → (r : ℚ) * (8/10) ≤ (y : ℚ) →
      expScoreFromYears r y = 70 + ⌊(10 : ℚ) * (y : ℚ) / (r : ℚ)⌋) ∧
    (∀ y : Nat, ¬ r ≤ (y : Int) → ¬ (r : ℚ) * (8/10) ≤ (y : ℚ) →
      expScoreFromYears r y = max 30 ⌊(60 : ℚ) * (y : ℚ) / (r : ℚ)⌋) ∧
    expScoreFromYears 5 (extractYears ("3 years experience".data.map Char.toLower)) = 36 := by
  refine ⟨?_, ?_, ?_, ?_, ?_⟩
  · unfold calculate_experience_score
    rw [hmin]
    dsimp only
    rw [if_neg hr]
  · intro y hy
    exact expScore_eq_b1 hy
  · intro y h1 h2
    have hyr : (y : ℚ) < (r : ℚ) := by exact_mod_cast lt_of_not_le h1
    have hr0 : (0 : ℚ) < (r : ℚ) := lt_of_le_of_lt (by positivity) hyr
    rw [expScore_eq_b2 h1 h2, pyInt_eq_floor (by positivity)]
    congr 1
    ring
  · intro y h1 h2
    have hy8 : (y : ℚ) < (r : ℚ) * (8/10) := lt_of_not_le h2
    have hr0 : (0 : ℚ) < (r : ℚ) := by nlinarith [show (0:ℚ) ≤ (y:ℚ) by positivity]
    rw [expScore_eq_b3 h1 h2]
    have : pyInt (((y : ℚ) / (r : ℚ)) * 60) = ⌊(60 : ℚ) * (y : ℚ) / (r : ℚ)⌋ := by
      rw [pyInt_eq_floor (by positivity)]
      congr 1
      ring
    rw [this]
  · decide

/-- C4 witness: the scenario record with `minimum_years = 5` and summary
`"3 years experience"`, its pre-blend value 36, and the blend equation. -/
theorem C4_experience_witness :
    wJob5.experience.minimum_years = some 5 ∧ (5 : Int) ≠ 0 ∧
    (calculate_experience_score wCv3 wJob5 []).1 =
      expBlend (confGet [] "experience" (8/10))
        (expScoreFromYears 5
          (extractYears (wCv3.key_information.experience_summary.data.map Char.toLower))) ∧
    expScoreFromYears 5 (extractYears ("3 years experience".data.map Char.toLower)) = 36 :=
  ⟨rfl, by decide,
    (C4_experience_three_branch_formula_and_scenario wCv3 wJob5 [] 5 rfl (by decide)).1,
    (C4_experience_three_branch_formula_and_scenario wCv3 wJob5 [] 5 rfl (by decide)).2.2.2.2⟩

/-- C6: holding the job record and the confidence map fixed (with a
nonnegative `"experience"` confidence, 0.8 being the default), the experience
score is monotonically non-decreasing in the years value extracted from the
candidate's experience summary text. -/
theorem C6_experience_score_monotone_in_extracted_years
    (confs : List (String × ℚ)) (job : JobRequirements) (cv1 cv2 : CVAnalysis)
    (hc : 0 ≤ confGet confs "experience" (8/10))
    (hy : extractYears (cv1.key_information.experience_summary.data.map Char.toLower) ≤
      extractYears (cv2.key_information.experience_summary.data.map Char.toLower)) :
    (calculate_experience_score cv1 job confs).1 ≤
      (calculate_experience_score cv2 job confs).1 := by
  unfold calculate_experience_score
  cases hm : job.experience.minimum_years with
  | none => exact le_refl _
  | some r =>
    dsimp only
    split
    · exact le_refl _
    · exact expBlend_mono hc (expScore_mono r hy)

/-- C6 witness: with the empty confidence map and a five-year minimum, the
score for a two-year summary is at most the score for a seven-year summary. -/
theorem C6_experience_monotone_witness :
    0 ≤ confGet [] "experience" (8/10) ∧
    extractYears (wCv2.key_information.experience_summary.data.map Char.toLower) ≤
      extractYears (wCv7.key_information.experience_summary.data.map Char.toLower) ∧
    (calculate_experience_score wCv2 wJob5 []).1 ≤
      (calculate_experience_score wCv7 wJob5 []).1 :=
  ⟨by decide, by decide,
    C6_experience_score_monotone_in_extracted_years [] wJob5 wCv2 wCv7 (by decide) (by decide)⟩

/-- C7: constructing a `WeightingProfile` whose five weights sum more than
0.01 away from 1.0 fails (raising, modelled as `Except.error` carrying the
offending total), a successful construction stores the weights unchanged (no
renormalization), and every profile in the configured `WEIGHTING_PROFILES`
set has weights summing to 1.0 within the 0.01 tolerance. -/
theorem C7_weighting_profile_validation_and_configured_sums :
    (∀ t s e q r : ℚ, |t + s + e + q + r - 1| > 1/100 →
      mkWeightingProfile t s e q r = .error (t + s + e + q + r)) ∧
    (∀ (t s e q r : ℚ) (p : WeightingProfile), mkWeightingProfile t s e q r = .ok p →
      p = ⟨t, s, e, q, r⟩) ∧
    (WEIGHTING_PROFILES.all fun pr => decide (|pr.2.sumWeights - 1| ≤ 1/100)) = true := by
  refine ⟨?_, ?_, ?_⟩
  · intro t s e q r h
    unfold mkWeightingProfile
    rw [if_pos h]
  · intro t s e q r p h
    unfold mkWeightingProfile at h
    split at h
    · exact absurd h (by simp)
    · injection h with h
      exact h.symm
  · decide

/-- C7 witness: all-ones weights sum to 5 and are rejected with the offending
total; the software-engineering weights are accepted unchanged. -/
theorem C7_weighting_profile_witness :
    |(1 : ℚ) + 1 + 1 + 1 + 1 - 1| > 1/100 ∧
    mkWeightingProfile 1 1 1 1 1 = .error (1 + 1 + 1 + 1 + 1) ∧
    (⟨40/100, 10/100, 30/100, 10/100, 10/100⟩ : WeightingProfile) =
      ⟨40/100, 10/100, 30/100, 10/100, 10/100⟩ :=
  ⟨by decide,
    (C7_weighting_profile_validation_and_configured_sums).1 1 1 1 1 1 (by decide),
    (C7_weighting_profile_validation_and_configured_sums).2.1 (40/100) (10/100) (30/100)
      (10/100) (10/100) ⟨40/100, 10/100, 30/100, 10/100, 10/100⟩ (by rfl)⟩

theorem mem_insertDesc {m x : SkillMatch} {l : List SkillMatch} :
    x ∈ insertDesc m l ↔ x = m ∨ x ∈ l := by
  induction l with
  | nil => simp [insertDesc]
  | cons y ys ih =>
    unfold insertDesc
    split
    · simp only [List.mem_cons]
    · simp only [List.mem_cons, ih]
      tauto

theorem mem_sortDesc {x : SkillMatch} {l : List SkillMatch} :
    x ∈ sortDesc l ↔ x ∈ l := by
  induction l with
  | nil => simp [sortDesc]
  | cons y ys ih =>
    unfold sortDesc
    rw [mem_insertDesc]
    simp only [List.mem_cons, ih]

theorem semantic_similarity_le_one (s1 s2 : String) : semantic_similarity s1 s2 ≤ 1 := by
  unfold semantic_similarity
  split
  · norm_num
  · split
    · norm_num
    · exact min_le_left _ _

/-- Membership in `find_semantic_matches` forces the threshold bound, the cap
at 1, and the confidence being exactly the semantic similarity against the
matched canonical name. -/
theorem find_semantic_matches_spec (skill : String) (t : ℚ) :
    ∀ m ∈ find_semantic_matches skill t,
      t ≤ m.confidence ∧ m.confidence ≤ 1 ∧
      m.confidence = semantic_similarity skill m.normalized := by
  intro m hm
  unfold find_semantic_matches at hm
  split at hm
  · exact absurd hm (List.not_mem_nil _)
  · have hm' := List.take_subset _ _ hm
    rw [mem_sortDesc] at hm'
    obtain ⟨c, _, hf⟩ := List.mem_filterMap.1 hm'
    by_cases hth : semantic_similarity skill c ≥ t
    · rw [if_pos hth] at hf
      obtain rfl := (Option.some.inj hf).symm
      exact ⟨hth, semantic_similarity_le_one _ _, rfl⟩
    · rw [if_neg hth] at hf
      exact absurd hf (by simp)

set_option maxRecDepth 100000 in
/-- C8 counterexample: for the input `"javasc"` at threshold 0.7 the fuzzy
stage finds `javascript` (confidence 0.75) before `java` (confidence 0.8), so
the best fuzzy confidence is NOT below 0.8, yet the semantic stage IS invoked:
the guard `matches[0].confidence < 0.8` reads the first accumulated match of
the yet-unsorted list, not the best one, refuting the claimed
"iff no matches or best fuzzy confidence below 0.8". -/
theorem C8_counterexample_trigger_reads_first_not_best :
    ¬ ((semanticTrigger (aliasFuzzyMatches "javasc" (normalize_skill "javasc") (7/10)) =
          true) ↔
        (aliasFuzzyMatches "javasc" (normalize_skill "javasc") (7/10) = [] ∨
          ((aliasFuzzyMatches "javasc" (normalize_skill "javasc") (7/10)).all
            fun m => decide (m.confidence < 8/10)) = true)) := by
  decide

/-- C8 amended: the semantic stage of `fuzzy_match_skill` is invoked iff the
accumulated alias+fuzzy match list is empty or its FIRST element (in the
engine's canonical-name iteration order; the source iterates an unordered
`set` and only sorts afterwards) has confidence below 0.8 — not the best
element, as the original claim said; when invoked, every semantic result has
confidence `min(1, 0.6*jaccard + 0.4*ratio + 0.3 category bonus)` (for
distinct normalized non-empty inputs) and is kept only from
`max(threshold, 0.6)` upward. -/
theorem C8_semantic_stage_trigger_and_formula :
    (∀ (skill : String) (threshold : ℚ),
      semanticTrigger (aliasFuzzyMatches skill (normalize_skill skill) threshold) = true ↔
        (aliasFuzzyMatches skill (normalize_skill skill) threshold = [] ∨
          ∃ m, (aliasFuzzyMatches skill (normalize_skill skill) threshold).head? = some m ∧
            m.confidence < 8/10)) ∧
    (∀ (skill : String) (threshold : ℚ),
      pyStripStr skill ≠ "" →
      normalizedSkills.contains (normalize_skill skill) = false →
      aliasEarlyReturn (aliasStage skill (normalize_skill skill)) threshold = false →
      fuzzy_match_skill skill threshold =
        (dedupByNorm (sortDesc
          (if semanticTrigger (aliasFuzzyMatches skill (normalize_skill skill) threshold)
           then aliasFuzzyMatches skill (normalize_skill skill) threshold ++
             find_semantic_matches skill (max threshold (6/10))
           else aliasFuzzyMatches skill (normalize_skill skill) threshold)) []).take 3) ∧
    (∀ (skill : String) (threshold : ℚ),
      ∀ m ∈ find_semantic_matches skill (max threshold (6/10)),
        max threshold (6/10) ≤ m.confidence ∧ m.confidence ≤ 1 ∧
        m.confidence = semantic_similarity skill m.normalized) ∧
    (∀ s1 s2 : String, s1 ≠ "" → s2 ≠ "" →
      normalize_skill s1 ≠ normalize_skill s2 →
      semantic_similarity s1 s2 =
        min 1 (jaccardTokens (normalize_skill s1) (normalize_skill s2) * (6/10) +
          smRatioVal (normalize_skill s1).data (normalize_skill s2).data * (4/10) +
          (if get_skill_category (normalize_skill s1) =
                get_skill_category (normalize_skill s2) ∧
              get_skill_category (normalize_skill s1) ≠ "other"
           then 3/10 else 0))) := by
  refine ⟨?_, ?_, ?_, ?_⟩
  · intro skill threshold
    unfold semanticTrigger
    cases hms : aliasFuzzyMatches skill (normalize_skill skill) threshold with
    | nil => simp
    | cons x xs => simp [List.head?]
  · intro skill threshold h1 h2 h3
    unfold fuzzy_match_skill
    rw [if_neg h1, if_neg (by rw [h2]; simp), if_neg (by rw [h3]; simp)]
  · intro skill threshold
    exact find_semantic_matches_spec skill (max threshold (6/10))
  · intro s1 s2 h1 h2 hne
    unfold semantic_similarity
    rw [if_neg (by tauto), if_neg hne]

set_option maxRecDepth 100000 in
/-- C8 amended witness: `"power"` at threshold 0.5 yields a semantic match
against `"power bi"` whose confidence is the semantic similarity, at least
`max(0.5, 0.6)`, and at most 1; the trigger iff and the formula instantiate
on the same concrete data. -/
theorem C8_semantic_stage_witness :
    (⟨"power", "power bi", semantic_similarity "power" "power bi", "semantic"⟩ : SkillMatch) ∈
      find_semantic_matches "power" (max (1/2) (6/10)) ∧
    max (1/2) (6/10) ≤ semantic_similarity "power" "power bi" ∧
    semantic_similarity "power" "power bi" ≤ 1 ∧
    ("power" : String) ≠ "" ∧ ("power bi" : String) ≠ "" ∧
    normalize_skill "power" ≠ normalize_skill "power bi" ∧
    semantic_similarity "power" "power bi" =
      min 1 (jaccardTokens (normalize_skill "power") (normalize_skill "power bi") * (6/10) +
        smRatioVal (normalize_skill "power").data (normalize_skill "power bi").data * (4/10) +
        (if get_skill_category (normalize_skill "power") =
              get_skill_category (normalize_skill "power bi") ∧
            get_skill_category (normalize_skill "power") ≠ "other"
         then 3/10 else 0)) := by
  have hm : (⟨"power", "power bi", semantic_similarity "power" "power bi", "semantic"⟩ :
      SkillMatch) ∈ find_semantic_matches "power" (max (1/2) (6/10)) := by decide
  have hs := C8_semantic_stage_trigger_and_formula.2.2.1 "power" (1/2) _ hm
  exact ⟨hm, hs.1, hs.2.1,
    by decide, by decide, by decide,
    C8_semantic_stage_trigger_and_formula.2.2.2 "power" "power bi"
      (by decide) (by decide) (by decide)⟩
